import Mathlib

/-! # RaceCapture GPS lap timing: launch control and the lap/sector machine

A shallow embedding of `src/launch_control.c` and `src/gps/gps.c`.

Conventions of the embedding

* The file-scope variables of a C file become the fields of a record, and a C
  function that writes them becomes a function from record to record.
* `tiny_millis_t` (declared in `dateTime.h`, which is not part of the sources)
  is taken as `Int`; subtraction is exact, so the embedding describes the code
  as long as no timestamp arithmetic overflows.  C `int` counters are `Int` too.
* `float` values (coordinates, speed, distance, radius) are taken as rationals;
  the comparison `speed < 3.0` is the order of `ℚ` (no NaN).
* `getMillisSinceFirstFix()` reads `g_dtLastFix` and `g_dtFirstFix`, which the
  GPS reader writes between two calls of the code embedded here.  Its value
  during one call is the argument `now` of that call.
* The geometry and track helpers (`geoCircle.c`, `geopoint.c`, `tracks.c`,
  `auto_track.c`) are not part of the sources; they are the fields of `Geo`,
  and every theorem holds for every `Geo`.
-/

namespace RaceCapture

/-! ## Data model -/

/-- A position: latitude and longitude in degrees. -/
structure GeoPoint where
  latitude : ℚ
  longitude : ℚ
deriving DecidableEq

/-- A circular geofence: centre and radius in metres. -/
structure GeoCircle where
  point : GeoPoint
  radius : ℚ
deriving DecidableEq

/-- Modelled from the spec: the `Track` record of `tracks.h` (start and finish
points and the ordered sector points); the code reads it through the accessors
of `Geo` only. -/
structure Track where
  startPoint : GeoPoint
  finishPoint : GeoPoint
  sectors : List GeoPoint
deriving DecidableEq

/-- Modelled from the spec: the signal-quality enum of `gps.h`; the code
distinguishes `GPS_QUALITY_NO_FIX` from everything else. -/
inductive GpsSignalQuality where
  | GPS_QUALITY_NO_FIX
  | GPS_QUALITY_2D
  | GPS_QUALITY_3D
  | GPS_QUALITY_3D_DGNSS
deriving DecidableEq

/-- One GPS fix as the code reads it: `point`, `speed` and `quality`. -/
structure GpsSample where
  point : GeoPoint
  speed : ℚ
  quality : GpsSignalQuality
deriving DecidableEq

/-- The external helpers the code calls, as parameters. -/
structure Geo where
  gc_createGeoCircle : GeoPoint → ℚ → GeoCircle
  gc_isValidGeoCircle : GeoCircle → Bool
  gc_isPointInGeoCircle : GeoPoint → GeoCircle → Bool
  isValidPoint : GeoPoint → Bool
  areGeoPointsEqual : GeoPoint → GeoPoint → Bool
  distPythag : GeoPoint → GeoPoint → ℚ
  getStartPoint : Track → GeoPoint
  getFinishPoint : Track → GeoPoint
  getSectorGeoPointAtIndex : Track → Int → GeoPoint
  isStartPointValid : Track → Bool
  isFinishPointValid : Track → Bool
  auto_configure_track : Track → GeoPoint → Track
  SAMPLE_DISABLED : Int

/-! ## launch_control.c -/

/-- The constant `LC_SPEED_THRESHOLD`. -/
def LC_SPEED_THRESHOLD : ℚ := 3

/-- The file-scope variables of `launch_control.c`. -/
structure LaunchControl where
  g_startTime : Int
  g_geoCircle : GeoCircle
  g_hasLaunched : Bool
deriving DecidableEq

namespace LaunchControl

/-- `isValidStartTime`: a candidate start time is recorded. -/
def isValidStartTime (s : LaunchControl) : Bool :=
  s.g_startTime != 0

/-- `isConfigured`: the start circle is a valid circle. -/
def isConfigured (E : Geo) (s : LaunchControl) : Bool :=
  E.gc_isValidGeoCircle s.g_geoCircle

/-- `isGeoPointInStartArea`. -/
def isGeoPointInStartArea (E : Geo) (s : LaunchControl) (p : GeoPoint) : Bool :=
  E.gc_isPointInGeoCircle p s.g_geoCircle

/-- `isSpeedBelowThreshold`. -/
def isSpeedBelowThreshold (speed : ℚ) : Bool :=
  decide (speed < LC_SPEED_THRESHOLD)

/-- `lc_hasLaunched`. -/
def lc_hasLaunched (s : LaunchControl) : Bool :=
  s.g_hasLaunched

/-- `lc_getLaunchTime`: the start time once launched, 0 before. -/
def lc_getLaunchTime (s : LaunchControl) : Int :=
  if lc_hasLaunched s then s.g_startTime else 0

/-- `lc_reset`: all three variables are zeroed. -/
def lc_reset (_s : LaunchControl) : LaunchControl :=
  { g_startTime := 0, g_geoCircle := ⟨⟨0, 0⟩, 0⟩, g_hasLaunched := false }

/-- `lc_setup`: reset, then the start circle is built around the start point. -/
def lc_setup (E : Geo) (s : LaunchControl) (track : Track) (targetRadius : ℚ) :
    LaunchControl :=
  { lc_reset s with
    g_geoCircle := E.gc_createGeoCircle (E.getStartPoint track) targetRadius }

/-- `lc_supplyGpsSample`, with `now` the value of `getMillisSinceFirstFix()`. -/
def lc_supplyGpsSample (E : Geo) (now : Int) (s : LaunchControl)
    (sample : GpsSample) : LaunchControl :=
  if !isConfigured E s || lc_hasLaunched s then s
  else if isGeoPointInStartArea E s sample.point then
    if !isValidStartTime s || isSpeedBelowThreshold sample.speed then
      { s with g_startTime := now }
    else s
  else { s with g_hasLaunched := isValidStartTime s }

/-- A sequence of calls of `lc_supplyGpsSample`; each entry is the session time
read during the call and the sample supplied. -/
def lc_supplyAll (E : Geo) (s : LaunchControl) :
    List (Int × GpsSample) → LaunchControl
  | [] => s
  | x :: xs => lc_supplyAll E (lc_supplyGpsSample E x.1 s x.2) xs

end LaunchControl

/-! ## gps.c -/

/-- The constant `START_FINISH_TIME_THRESHOLD`, in milliseconds. -/
def START_FINISH_TIME_THRESHOLD : Int := 10000

/-- A call to one of the two recording collaborators. -/
inductive Notification where
  | startFinishCrossed (p : GeoPoint) (time : Int)
  | addGpsSample (p : GeoPoint) (time : Int)
deriving DecidableEq

/-- The part of the working logger configuration that `gps.c` reads. -/
structure LoggerConfig where
  radius : ℚ
  auto_detect : Bool
  track : Track
  sectorSampleRate : Int
deriving DecidableEq

/-- The file-scope variables of `gps.c`, the two `static` locals of
`onLocationUpdated`, the variables of `launch_control.c` (`lc`), the current
position `g_latitude`/`g_longitude` that `getGeoPoint` reads, and the calls made
so far to the recording collaborators, latest first (`notifications`). -/
structure GpsState where
  lc : LaunchControl
  g_activeTrack : Option Track
  g_configured : Int
  g_flashCount : Int
  g_prevLatitude : ℚ
  g_prevLongitude : ℚ
  g_atStartFinish : Int
  g_prevAtStartFinish : Int
  g_lastStartFinishTimestamp : Int
  g_atTarget : Int
  g_prevAtTarget : Int
  g_lastSectorTimestamp : Int
  g_sector : Int
  g_lastSector : Int
  g_lastLapTime : Int
  g_lastSectorTime : Int
  g_lapCount : Int
  g_distance : ℚ
  g_latitude : ℚ
  g_longitude : ℚ
  g_utcMillisAtSample : Int
  g_uptimeAtSample : Int
  sectorEnabled : Int
  startFinishEnabled : Int
  notifications : List Notification
deriving DecidableEq

/-- A C truth value stored in an `int`. -/
def boolToInt (b : Bool) : Int := if b then 1 else 0

/-- `degreesToMeters`. -/
def degreesToMeters (degrees : ℚ) : ℚ := degrees * 110574.27

/-- `isGpsSignalUsable`. -/
def isGpsSignalUsable (q : GpsSignalQuality) : Bool :=
  q != GpsSignalQuality.GPS_QUALITY_NO_FIX

namespace GpsState

/-- `getGeoPoint`: the current position. -/
def getGeoPoint (s : GpsState) : GeoPoint :=
  ⟨s.g_latitude, s.g_longitude⟩

/-- `resetGpsDistance`. -/
def resetGpsDistance (s : GpsState) : GpsState :=
  { s with g_distance := 0 }

/-- `getLapCount`. -/
def getLapCount (s : GpsState) : Int := s.g_lapCount

/-- `isStartCrossedYet`. -/
def isStartCrossedYet (s : GpsState) : Bool :=
  s.g_lastStartFinishTimestamp != 0

/-- `calcDistancesSinceLastSample`, in km. -/
def calcDistancesSinceLastSample (E : Geo) (s : GpsState) (gpsSample : GpsSample) : ℚ :=
  let prev : GeoPoint := ⟨s.g_prevLatitude, s.g_prevLongitude⟩
  if !E.isValidPoint prev || !E.isValidPoint gpsSample.point then 0
  else E.distPythag prev gpsSample.point / 1000

/-- `processStartFinish`: the new state and the returned truth value.  `now` is
the value of `getMillisSinceFirstFix()` during the call. -/
def processStartFinish (E : Geo) (now : Int) (s : GpsState) (gpsSample : GpsSample)
    (track : Track) (targetRadius : ℚ) : GpsState × Bool :=
  if !isStartCrossedYet s then
    let s1 := { s with lc := LaunchControl.lc_supplyGpsSample E now s.lc gpsSample }
    if LaunchControl.lc_hasLaunched s1.lc then
      ({ s1 with
          g_lastStartFinishTimestamp := LaunchControl.lc_getLaunchTime s1.lc
          g_lastSectorTimestamp := LaunchControl.lc_getLaunchTime s1.lc
          g_prevAtStartFinish := 1
          g_sector := 0 }, true)
    else (s1, false)
  else
    let timestamp := now
    let elapsed := timestamp - s.g_lastStartFinishTimestamp
    let sfCircle := E.gc_createGeoCircle (E.getFinishPoint track) targetRadius
    let s1 := { s with
      g_atStartFinish := boolToInt (E.gc_isPointInGeoCircle gpsSample.point sfCircle) }
    if s1.g_atStartFinish == 0 || s1.g_prevAtStartFinish != 0 ||
        decide (elapsed ≤ START_FINISH_TIME_THRESHOLD) then
      ({ s1 with g_prevAtStartFinish := 0 }, false)
    else
      ({ s1 with
          g_lapCount := s1.g_lapCount + 1
          g_lastLapTime := elapsed
          g_lastStartFinishTimestamp := timestamp
          g_prevAtStartFinish := 1 }, true)

/-- `processSector`. -/
def processSector (E : Geo) (now : Int) (s : GpsState) (track : Track)
    (targetRadius : ℚ) : GpsState :=
  if !isStartCrossedYet s then s
  else
    let point := E.getSectorGeoPointAtIndex track s.g_sector
    let sbCircle := E.gc_createGeoCircle point targetRadius
    let s1 := { s with
      g_atTarget := boolToInt (E.gc_isPointInGeoCircle (getGeoPoint s) sbCircle) }
    if s1.g_atTarget == 0 then { s1 with g_prevAtTarget := 0 }
    else
      let millis := now
      let s2 := { s1 with
        g_prevAtTarget := 1
        g_lastSectorTime := millis - s1.g_lastSectorTimestamp
        g_lastSectorTimestamp := millis
        g_lastSector := s1.g_sector
        g_sector := s1.g_sector + 1 }
      let next := E.getSectorGeoPointAtIndex track s2.g_sector
      if E.areGeoPointsEqual point next then { s2 with g_sector := 0 } else s2

/-- `gpsConfigChanged`. -/
def gpsConfigChanged (s : GpsState) : GpsState :=
  { s with g_configured := 0 }

/-- `initGPS`.  The launch-control variables, the two `static` locals and the
current position are not written.  The call of `resetPredictiveTimer` and the
reset of `g_dtFirstFix`/`g_dtLastFix` act on state outside this record; after
them `getMillisSinceFirstFix()` restarts from the next fix. -/
def initGPS (s : GpsState) : GpsState :=
  { s with
    g_configured := 0
    g_activeTrack := none
    g_utcMillisAtSample := 0
    g_flashCount := 0
    g_prevLatitude := 0
    g_prevLongitude := 0
    g_lastLapTime := 0
    g_lastSectorTime := 0
    g_atStartFinish := 0
    g_prevAtStartFinish := 0
    g_lastStartFinishTimestamp := 0
    g_atTarget := 0
    g_prevAtTarget := 0
    g_lastSectorTimestamp := 0
    g_lapCount := 0
    g_distance := 0
    g_sector := -1
    g_lastSector := -1
    g_uptimeAtSample := 0 }

/-- `isStartFinishEnabled`. -/
def isStartFinishEnabled (E : Geo) (track : Track) : Bool :=
  E.isFinishPointValid track && E.isStartPointValid track

/-- `isSectorTrackingEnabled`. -/
def isSectorTrackingEnabled (E : Geo) (config : LoggerConfig) (track : Track) : Bool :=
  let p0 := E.getSectorGeoPointAtIndex track 0
  config.sectorSampleRate != E.SAMPLE_DISABLED && E.isValidPoint p0 &&
    isStartFinishEnabled E track

/-- The block of `onLocationUpdated` guarded by `!g_configured`: the active
track is selected, the two enable flags are computed and launch control is set
up. -/
def configure (E : Geo) (config : LoggerConfig) (s : GpsState) (gp : GeoPoint)
    (targetRadius : ℚ) : GpsState :=
  let defaultTrack := config.track
  let active :=
    if config.auto_detect then E.auto_configure_track defaultTrack gp else defaultTrack
  { s with
    g_activeTrack := some active
    startFinishEnabled := boolToInt (isStartFinishEnabled E active)
    sectorEnabled := boolToInt (isSectorTrackingEnabled E config active)
    lc := LaunchControl.lc_setup E s.lc active targetRadius
    g_configured := 1 }

/-- The block of `onLocationUpdated` guarded by `startFinishEnabled`, for the
active track `track`. -/
def trackLaps (E : Geo) (now : Int) (s : GpsState) (gpsSample : GpsSample)
    (track : Track) (targetRadius : ℚ) : GpsState :=
  let gp := gpsSample.point
  let millisSinceFirstFix := now
  let r := processStartFinish E now s gpsSample track targetRadius
  let s1 := r.1
  let lapDetected := r.2
  let s2 :=
    if lapDetected then
      let s3 := resetGpsDistance s1
      if getLapCount s3 == 0 then
        let sp := E.getStartPoint track
        { s3 with
          g_distance := E.distPythag sp gp / 1000
          notifications :=
            Notification.addGpsSample gp millisSinceFirstFix ::
              Notification.startFinishCrossed sp s3.g_lastStartFinishTimestamp ::
                s3.notifications }
      else
        { s3 with
          notifications :=
            Notification.startFinishCrossed gp millisSinceFirstFix :: s3.notifications }
    else
      { s1 with
        notifications := Notification.addGpsSample gp millisSinceFirstFix :: s1.notifications }
  if s2.sectorEnabled != 0 then processSector E now s2 track targetRadius else s2

/-- `onLocationUpdated`.  The snapshot calls `processStartFinish` without its
first argument; the sample of the call is passed, as the signature asks.  The
result is `none` when the code would read through a null `g_activeTrack`. -/
def onLocationUpdated (E : Geo) (config : LoggerConfig) (now : Int) (s : GpsState)
    (gpsSample : GpsSample) : Option GpsState :=
  if !isGpsSignalUsable gpsSample.quality then some s
  else
    let gp := gpsSample.point
    let targetRadius := degreesToMeters config.radius
    let s1 := if s.g_configured == 0 then configure E config s gp targetRadius else s
    let dist := calcDistancesSinceLastSample E s1 gpsSample
    let s2 := { s1 with g_distance := s1.g_distance + dist }
    let s3 : Option GpsState :=
      if s2.startFinishEnabled != 0 then
        match s2.g_activeTrack with
        | none => none
        | some track => some (trackLaps E now s2 gpsSample track targetRadius)
      else some s2
    s3.map fun s4 =>
      { s4 with
        g_prevLatitude := gpsSample.point.latitude
        g_prevLongitude := gpsSample.point.longitude }

/-- One call of `processStartFinish`: the session time read during the call and
the three arguments. -/
structure StartFinishCall where
  now : Int
  gpsSample : GpsSample
  track : Track
  targetRadius : ℚ

/-- The state after one call of `processStartFinish`. -/
def startFinishStep (E : Geo) (s : GpsState) (c : StartFinishCall) : GpsState :=
  (processStartFinish E c.now s c.gpsSample c.track c.targetRadius).1

/-- The state after a sequence of calls of `processStartFinish`. -/
def processStartFinishAll (E : Geo) (s : GpsState) : List StartFinishCall → GpsState
  | [] => s
  | c :: cs => processStartFinishAll E (startFinishStep E s c) cs

/-- The state in which `onLocationUpdated` evaluates a fix at `gp`: the state
itself when it is configured, the result of the configuration block when not. -/
def stateAtEvaluation (E : Geo) (config : LoggerConfig) (s : GpsState) (gp : GeoPoint) :
    GpsState :=
  if s.g_configured == 0 then configure E config s gp (degreesToMeters config.radius) else s

/-- The variables that decide how a later fix is evaluated (launch control,
active track, configured and start/finish flags, current position,
last-crossing timestamp) and the lap count, sector index, last lap time and
last sector time are the same in `a` and `b`. -/
def keepsTiming (a b : GpsState) : Prop :=
  a.lc = b.lc ∧ a.g_activeTrack = b.g_activeTrack ∧ a.g_configured = b.g_configured ∧
    a.startFinishEnabled = b.startFinishEnabled ∧
    a.g_latitude = b.g_latitude ∧ a.g_longitude = b.g_longitude ∧
    a.g_lastStartFinishTimestamp = b.g_lastStartFinishTimestamp ∧
    a.g_lapCount = b.g_lapCount ∧ a.g_sector = b.g_sector ∧
    a.g_lastLapTime = b.g_lastLapTime ∧ a.g_lastSectorTime = b.g_lastSectorTime

/-- The invariant of the lap/sector machine in a session with non-negative
session times: the candidate start time and the last-crossing timestamp are
non-negative; while the start has not been crossed the sector index is -1 and
launch control has not launched; once it has been crossed the sector index is
non-negative. -/
def timingInv (s : GpsState) : Prop :=
  0 ≤ s.lc.g_startTime ∧ 0 ≤ s.g_lastStartFinishTimestamp ∧
    (s.g_lastStartFinishTimestamp = 0 → s.g_sector = -1 ∧ s.lc.g_hasLaunched = false) ∧
    (s.g_lastStartFinishTimestamp ≠ 0 → 0 ≤ s.g_sector)

/-- The invariant of a session: an unconfigured session satisfies the sector
part of `timingInv`; a configured one has an active track and satisfies
`timingInv`. -/
def sessionInv (s : GpsState) : Prop :=
  (s.g_configured = 0 ∧ 0 ≤ s.g_lastStartFinishTimestamp ∧
      (s.g_lastStartFinishTimestamp = 0 → s.g_sector = -1) ∧
      (s.g_lastStartFinishTimestamp ≠ 0 → 0 ≤ s.g_sector)) ∨
    (s.g_configured ≠ 0 ∧ s.g_activeTrack ≠ none ∧ timingInv s)

/-- A sequence of calls of `onLocationUpdated` under one configuration; each
entry is the session time read during the call and the sample.  The result is
`none` as soon as one call reads through a null `g_activeTrack`. -/
def onLocationUpdatedAll (E : Geo) (config : LoggerConfig) (s : GpsState) :
    List (Int × GpsSample) → Option GpsState
  | [] => some s
  | x :: xs =>
    match onLocationUpdated E config x.1 s x.2 with
    | none => none
    | some s1 => onLocationUpdatedAll E config s1 xs

/-- The number of calls, in a sequence of calls of `processStartFinish`, that
return true from the first-crossing branch. -/
def firstCrossingReports (E : Geo) (s : GpsState) : List StartFinishCall → Nat
  | [] => 0
  | c :: cs =>
    (if s.g_lastStartFinishTimestamp = 0 ∧
        (processStartFinish E c.now s c.gpsSample c.track c.targetRadius).2 = true then 1
      else 0) + firstCrossingReports E (startFinishStep E s c) cs

/-- The launch time stamped at the first crossing of a sequence of calls of
`processStartFinish`: the value that the first call returning true from the
first-crossing branch writes to `g_lastStartFinishTimestamp`; 0 when no call
does. -/
def launchStamp (E : Geo) (s : GpsState) : List StartFinishCall → Int
  | [] => 0
  | c :: cs =>
    if s.g_lastStartFinishTimestamp = 0 ∧
        (processStartFinish E c.now s c.gpsSample c.track c.targetRadius).2 = true then
      (startFinishStep E s c).g_lastStartFinishTimestamp
    else launchStamp E (startFinishStep E s c) cs

/-- The values written to `g_lastLapTime` during a sequence of calls of
`processStartFinish`, oldest first: the variable is written in the statement
after `g_lapCount++`, so one value is logged for every call that changes the
lap count. -/
def lapTimesWritten (E : Geo) (s : GpsState) : List StartFinishCall → List Int
  | [] => []
  | c :: cs =>
    (if (startFinishStep E s c).g_lapCount ≠ s.g_lapCount then
        [(startFinishStep E s c).g_lastLapTime]
      else []) ++ lapTimesWritten E (startFinishStep E s c) cs

end GpsState

/-! ## gps.c: checksumValid

The buffer is the memory behind `gpsData`, a function from the index to the
byte stored there.  `size_t` arithmetic is exact, except `len - 1`, which is
`sizeMax` (the largest `size_t`, a parameter) when `len` is 0.  The sum `i + 2`
is at most `len + 1`.  The function is embedded together with the list of the
indices it reads, latest first. -/

/-- The loop of `checksumValid` from index `i` on, with the checksum and the
indices read so far: the index at which the loop ends, the checksum and the
indices read.  `bound` is the value of `len - 1`. -/
def checksumScan (gpsData : Nat → Nat) (bound : Nat) (i checksum : Nat) (reads : List Nat) :
    Nat × Nat × List Nat :=
  if i < bound then
    if gpsData i = 42 ∨ gpsData i = 0 then (i, checksum, i :: reads)
    else if gpsData i = 36 then checksumScan gpsData bound (i + 1) checksum (i :: reads)
    else checksumScan gpsData bound (i + 1) ((checksum ^^^ gpsData i) % 256) (i :: reads)
  else (i, checksum, reads)
termination_by bound - i

/-- `checksumValid` with the indices it reads.  `modp_xtoc` (of
`modp_atonum.c`, not part of the sources) is a parameter: the byte decoded from
the two characters it is pointed at. -/
def checksumValidTrace (sizeMax : Nat) (modp_xtoc : Nat → Nat → Nat) (gpsData : Nat → Nat)
    (len : Nat) : Int × List Nat :=
  let r := checksumScan gpsData (if len = 0 then sizeMax else len - 1) 0 0 []
  let i := r.1
  let checksum := r.2.1
  if len > i + 2 then
    let dataChecksum := modp_xtoc (gpsData (i + 1)) (gpsData (i + 2))
    (if checksum = dataChecksum then 1 else 0, (i + 2) :: (i + 1) :: r.2.2)
  else (0, r.2.2)

/-- `checksumValid`: 1 when the line carries a matching checksum, 0 otherwise. -/
def checksumValid (sizeMax : Nat) (modp_xtoc : Nat → Nat → Nat) (gpsData : Nat → Nat)
    (len : Nat) : Int :=
  (checksumValidTrace sizeMax modp_xtoc gpsData len).1

/-! ## A concrete geometry, for evaluating the code on examples -/

/-- Metres per degree of latitude, the constant of `degreesToMeters`. -/
def metersPerDegree : ℚ := 110574.27

/-- A rational stand-in for the planar distance in metres between two points
(the sum of the two coordinate differences, scaled to metres). -/
def gridDistance (p q : GeoPoint) : ℚ :=
  metersPerDegree * (|p.latitude - q.latitude| + |p.longitude - q.longitude|)

/-- A point is valid unless it is the origin. -/
def gridValidPoint (p : GeoPoint) : Bool :=
  decide (p.latitude ≠ 0) || decide (p.longitude ≠ 0)

/-- A concrete instance of the external helpers: circles are records, a circle
is valid when its radius is positive and its centre valid, a point is inside
when its distance to the centre is at most the radius. -/
def gridGeo : Geo where
  gc_createGeoCircle p r := ⟨p, r⟩
  gc_isValidGeoCircle c := decide (0 < c.radius) && gridValidPoint c.point
  gc_isPointInGeoCircle p c := decide (gridDistance p c.point ≤ c.radius)
  isValidPoint := gridValidPoint
  areGeoPointsEqual p q := decide (p = q)
  distPythag := gridDistance
  getStartPoint t := t.startPoint
  getFinishPoint t := t.finishPoint
  getSectorGeoPointAtIndex t i := t.sectors.getD i.toNat ⟨0, 0⟩
  isStartPointValid t := gridValidPoint t.startPoint
  isFinishPointValid t := gridValidPoint t.finishPoint
  auto_configure_track t _ := t
  SAMPLE_DISABLED := 0

/-- A track whose start and finish are the point (1, 1). -/
def demoTrack : Track :=
  { startPoint := ⟨1, 1⟩, finishPoint := ⟨1, 1⟩, sectors := [⟨1, 2⟩, ⟨1, 2⟩] }

/-- A fix at the start point of `demoTrack`. -/
def fixAtStart (speed : ℚ) : GpsSample :=
  { point := ⟨1, 1⟩, speed := speed, quality := .GPS_QUALITY_3D }

/-- A fix one degree of latitude away from the start point of `demoTrack`. -/
def fixAway (speed : ℚ) : GpsSample :=
  { point := ⟨2, 1⟩, speed := speed, quality := .GPS_QUALITY_3D }

/-- Launch control just after `lc_setup` on `demoTrack` with a 20 m radius. -/
def demoLaunchControl : LaunchControl :=
  LaunchControl.lc_setup gridGeo ⟨0, ⟨⟨0, 0⟩, 0⟩, false⟩ demoTrack 20

/-- The variables of both files as the C runtime zero-initialises them. -/
def zeroState : GpsState where
  lc := ⟨0, ⟨⟨0, 0⟩, 0⟩, false⟩
  g_activeTrack := none
  g_configured := 0
  g_flashCount := 0
  g_prevLatitude := 0
  g_prevLongitude := 0
  g_atStartFinish := 0
  g_prevAtStartFinish := 0
  g_lastStartFinishTimestamp := 0
  g_atTarget := 0
  g_prevAtTarget := 0
  g_lastSectorTimestamp := 0
  g_sector := 0
  g_lastSector := 0
  g_lastLapTime := 0
  g_lastSectorTime := 0
  g_lapCount := 0
  g_distance := 0
  g_latitude := 0
  g_longitude := 0
  g_utcMillisAtSample := 0
  g_uptimeAtSample := 0
  sectorEnabled := 0
  startFinishEnabled := 0
  notifications := []

/-- A configuration for the demo track: radius 0.001 degrees (110.57427 m),
no auto-detection, sector timing disabled. -/
def demoConfig : LoggerConfig :=
  { radius := 1 / 1000, auto_detect := false, track := demoTrack, sectorSampleRate := 0 }

/-- The target radius of `demoConfig` in metres. -/
def demoRadius : ℚ := degreesToMeters (1 / 1000)

/-- A fix 0.0005 degrees of longitude (about 55 m) east of the start point of
the demo track, inside the finish circle of `demoConfig`. -/
def fixNearStart (speed : ℚ) : GpsSample :=
  { point := ⟨1, 10005 / 10000⟩, speed := speed, quality := .GPS_QUALITY_3D }

/-- The session on the demo track just after the launch was reported: launch
time 5, lap count 0, debounce flag set by the launch. -/
def demoLaunched : GpsState :=
  { GpsState.initGPS zeroState with
    lc := ⟨5, ⟨⟨1, 1⟩, demoRadius⟩, true⟩
    g_activeTrack := some demoTrack
    g_configured := 1
    startFinishEnabled := 1
    g_lastStartFinishTimestamp := 5
    g_lastSectorTimestamp := 5
    g_prevAtStartFinish := 1
    g_sector := 0
    g_prevLatitude := 2
    g_prevLongitude := 1
    g_distance := 3 }

/-- The session `demoLaunched` with the debounce flag clear: the vehicle has
been seen outside the finish circle since the launch. -/
def demoRunning : GpsState :=
  { demoLaunched with g_prevAtStartFinish := 0 }

/-- The session on the demo track while it awaits the first crossing, with a
launch candidate recorded at time 5. -/
def demoAwaiting : GpsState :=
  { demoRunning with
    lc := ⟨5, ⟨⟨1, 1⟩, demoRadius⟩, false⟩
    g_lastStartFinishTimestamp := 0
    g_lastSectorTimestamp := 0
    g_sector := -1 }

/-- A call of `processStartFinish` on the demo track at session time `now`. -/
def demoCall (now : Int) (x : GpsSample) : GpsState.StartFinishCall :=
  { now := now, gpsSample := x, track := demoTrack, targetRadius := demoRadius }

/-- The demo session when `onLocationUpdated` first reaches its start/finish
block: `initGPS`, then the configuration block for `demoConfig`. -/
def demoFresh : GpsState :=
  GpsState.configure gridGeo demoConfig (GpsState.initGPS zeroState) ⟨1, 1⟩
    (degreesToMeters demoConfig.radius)

/-- The running demo session with sector timing enabled, the vehicle at the
point (1, 2) of sector 0, and the sector flag left set by the previous call. -/
def demoAtSector : GpsState :=
  { demoRunning with
    sectorEnabled := 1
    g_latitude := 1
    g_longitude := 2
    g_atTarget := 1
    g_prevAtTarget := 1 }

/-- The session `demoRunning` with the vehicle at the point (2, 1). -/
def demoOffTrack : GpsState :=
  { demoRunning with g_latitude := 2, g_longitude := 1 }

/-- The session `demoAwaiting` with the vehicle at the point (2, 1). -/
def demoLeaving : GpsState :=
  { demoAwaiting with g_latitude := 2, g_longitude := 1 }

/-- A sample at the start point of `demoTrack` taken without a fix. -/
def fixLost (speed : ℚ) : GpsSample :=
  { point := ⟨1, 1⟩, speed := speed, quality := .GPS_QUALITY_NO_FIX }

/-- The value of one hexadecimal digit given as a character. -/
def hexDigit (c : Nat) : Nat :=
  if 48 ≤ c ∧ c ≤ 57 then c - 48
  else if 65 ≤ c ∧ c ≤ 70 then c - 55
  else if 97 ≤ c ∧ c ≤ 102 then c - 87
  else 0

/-- Modelled from the spec: `modp_xtoc` of `modp_atonum.c`, which decodes the
trailing 2-hex-digit checksum: sixteen times the first digit plus the second. -/
def hexByte (h1 h2 : Nat) : Nat :=
  16 * hexDigit h1 + hexDigit h2

/-- The memory that holds the bytes of `bytes` from index 0 on and NUL after
them. -/
def memoryOf (bytes : List Nat) : Nat → Nat :=
  fun i => bytes.getD i 0

/-! ## Launch control: helper lemmas -/

open LaunchControl

/-- Once launched, a sample changes nothing. -/
theorem lc_supply_launched (E : Geo) (now : Int) (s : LaunchControl) (x : GpsSample)
    (h : s.g_hasLaunched = true) : lc_supplyGpsSample E now s x = s := by
  simp [lc_supplyGpsSample, lc_hasLaunched, h]

/-- Without a valid start circle, a sample changes nothing. -/
theorem lc_supply_unconfigured (E : Geo) (now : Int) (s : LaunchControl) (x : GpsSample)
    (h : E.gc_isValidGeoCircle s.g_geoCircle = false) : lc_supplyGpsSample E now s x = s := by
  simp [lc_supplyGpsSample, isConfigured, h]

/-- The start circle is never written by a sample. -/
theorem lc_supply_circle (E : Geo) (now : Int) (s : LaunchControl) (x : GpsSample) :
    (lc_supplyGpsSample E now s x).g_geoCircle = s.g_geoCircle := by
  unfold lc_supplyGpsSample
  split_ifs <;> rfl

/-- A sample outside the start circle, in a configured and not yet launched
state: the flag becomes "a candidate is recorded", the rest is kept. -/
theorem lc_supply_outside (E : Geo) (now : Int) (s : LaunchControl) (x : GpsSample)
    (hc : E.gc_isValidGeoCircle s.g_geoCircle = true) (hl : s.g_hasLaunched = false)
    (ho : E.gc_isPointInGeoCircle x.point s.g_geoCircle = false) :
    lc_supplyGpsSample E now s x = { s with g_hasLaunched := (s.g_startTime != 0) } := by
  simp [lc_supplyGpsSample, isConfigured, lc_hasLaunched, isGeoPointInStartArea,
    isValidStartTime, hc, hl, ho]

/-- A sample inside the start circle, in a configured and not yet launched
state, stamps the candidate when none is recorded or the speed is below the
threshold. -/
theorem lc_supply_inside_stamp (E : Geo) (now : Int) (s : LaunchControl) (x : GpsSample)
    (hc : E.gc_isValidGeoCircle s.g_geoCircle = true) (hl : s.g_hasLaunched = false)
    (hi : E.gc_isPointInGeoCircle x.point s.g_geoCircle = true)
    (hs : s.g_startTime = 0 ∨ x.speed < 3) :
    lc_supplyGpsSample E now s x = { s with g_startTime := now } := by
  rcases hs with hs | hs <;>
    simp [lc_supplyGpsSample, isConfigured, lc_hasLaunched, isGeoPointInStartArea,
      isValidStartTime, isSpeedBelowThreshold, LC_SPEED_THRESHOLD, hc, hl, hi, hs]

/-- A sample inside the start circle, with a candidate recorded and a speed not
below the threshold, changes nothing. -/
theorem lc_supply_inside_keep (E : Geo) (now : Int) (s : LaunchControl) (x : GpsSample)
    (hi : E.gc_isPointInGeoCircle x.point s.g_geoCircle = true)
    (ht : s.g_startTime ≠ 0) (hs : ¬ x.speed < 3) :
    lc_supplyGpsSample E now s x = s := by
  unfold lc_supplyGpsSample
  split_ifs with h1 h2 h3
  · rfl
  · simp [isValidStartTime, isSpeedBelowThreshold, LC_SPEED_THRESHOLD, ht, hs] at h3
  · rfl
  · simp [isGeoPointInStartArea, hi] at h2

/-- Once launched, a sequence of samples changes nothing. -/
theorem lc_supplyAll_launched (E : Geo) (xs : List (Int × GpsSample)) (s : LaunchControl)
    (h : s.g_hasLaunched = true) : lc_supplyAll E s xs = s := by
  induction xs with
  | nil => rfl
  | cons x xs ih => simp [lc_supplyAll, lc_supply_launched E x.1 s x.2 h, ih]

/-- Without a valid start circle, a sequence of samples changes nothing. -/
theorem lc_supplyAll_unconfigured (E : Geo) (xs : List (Int × GpsSample)) (s : LaunchControl)
    (h : E.gc_isValidGeoCircle s.g_geoCircle = false) : lc_supplyAll E s xs = s := by
  induction xs with
  | nil => rfl
  | cons x xs ih => simp [lc_supplyAll, lc_supply_unconfigured E x.1 s x.2 h, ih]

/-- Supplying a sequence followed by one more sample. -/
theorem lc_supplyAll_append (E : Geo) (xs ys : List (Int × GpsSample)) (s : LaunchControl) :
    lc_supplyAll E s (xs ++ ys) = lc_supplyAll E (lc_supplyAll E s xs) ys := by
  induction xs generalizing s with
  | nil => rfl
  | cons x xs ih => simp [lc_supplyAll, ih]

/-- With no candidate recorded and no launch, samples outside the start circle
keep both so. -/
theorem lc_supplyAll_outside (E : Geo) (xs : List (Int × GpsSample)) (s : LaunchControl)
    (ht : s.g_startTime = 0) (hl : s.g_hasLaunched = false)
    (ho : ∀ x ∈ xs, E.gc_isPointInGeoCircle x.2.point s.g_geoCircle = false) :
    lc_supplyAll E s xs = s := by
  induction xs with
  | nil => rfl
  | cons x xs ih =>
    have hx : lc_supplyGpsSample E x.1 s x.2 = s := by
      cases hc : E.gc_isValidGeoCircle s.g_geoCircle with
      | false => exact lc_supply_unconfigured E x.1 s x.2 hc
      | true =>
        rw [lc_supply_outside E x.1 s x.2 hc hl (ho x (List.mem_cons_self _ _))]
        cases s
        simp_all
    simp only [lc_supplyAll, hx]
    exact ih fun y hy => ho y (List.mem_cons_of_mem _ hy)

/-- In a configured state with a candidate recorded and no launch, samples that
are inside the start circle and not below the speed threshold change nothing. -/
theorem lc_supplyAll_inside_keep (E : Geo) (xs : List (Int × GpsSample)) (s : LaunchControl)
    (ht : s.g_startTime ≠ 0)
    (hx : ∀ x ∈ xs, E.gc_isPointInGeoCircle x.2.point s.g_geoCircle = true ∧ ¬ x.2.speed < 3) :
    lc_supplyAll E s xs = s := by
  induction xs with
  | nil => rfl
  | cons x xs ih =>
    have h := hx x (List.mem_cons_self _ _)
    simp only [lc_supplyAll, lc_supply_inside_keep E x.1 s x.2 h.1 ht h.2]
    exact ih fun y hy => hx y (List.mem_cons_of_mem _ hy)

/-- In a configured and not yet launched state, samples inside the start circle
keep the circle and do not launch. -/
theorem lc_supplyAll_inside (E : Geo) (xs : List (Int × GpsSample)) (s : LaunchControl)
    (hl : s.g_hasLaunched = false)
    (hx : ∀ x ∈ xs, E.gc_isPointInGeoCircle x.2.point s.g_geoCircle = true) :
    (lc_supplyAll E s xs).g_hasLaunched = false ∧
      (lc_supplyAll E s xs).g_geoCircle = s.g_geoCircle := by
  induction xs generalizing s with
  | nil => exact ⟨hl, rfl⟩
  | cons x xs ih =>
    have hi := hx x (List.mem_cons_self _ _)
    have hc := lc_supply_circle E x.1 s x.2
    have hl2 : (lc_supplyGpsSample E x.1 s x.2).g_hasLaunched = false := by
      unfold lc_supplyGpsSample
      split_ifs with h1 h2 h3
      · exact hl
      · exact hl
      · exact hl
      · simp [isGeoPointInStartArea, hi] at h2
    have := ih (lc_supplyGpsSample E x.1 s x.2) hl2
      (fun y hy => by rw [hc]; exact hx y (List.mem_cons_of_mem _ hy))
    simp only [lc_supplyAll]
    exact ⟨this.1, this.2.trans hc⟩

/-! ## Facts about the concrete geometry -/

/-- The start circle of `demoLaunchControl` and its two other variables. -/
theorem demoLaunchControl_eq :
    demoLaunchControl = ⟨0, ⟨⟨1, 1⟩, 20⟩, false⟩ := by
  simp [demoLaunchControl, lc_setup, lc_reset, gridGeo, demoTrack]

/-- The 20 m circle around (1, 1) is a valid circle. -/
theorem grid_circle_valid : gridGeo.gc_isValidGeoCircle ⟨⟨1, 1⟩, 20⟩ = true := by
  simp [gridGeo, gridValidPoint]

/-- A fix at (1, 1) is inside the 20 m circle around (1, 1). -/
theorem grid_fixAtStart_inside (v : ℚ) :
    gridGeo.gc_isPointInGeoCircle (fixAtStart v).point ⟨⟨1, 1⟩, 20⟩ = true := by
  simp [gridGeo, gridDistance, fixAtStart]

/-- A fix at (2, 1) is outside the 20 m circle around (1, 1). -/
theorem grid_fixAway_outside (v : ℚ) :
    gridGeo.gc_isPointInGeoCircle (fixAway v).point ⟨⟨1, 1⟩, 20⟩ = false := by
  simp [gridGeo, gridDistance, fixAway, metersPerDegree]
  norm_num

/-! ## Launch control: the claims -/

/-- C1 (as amended): in a configured, not yet launched state with no candidate
recorded, one sample inside the start circle with speed below 3.0 taken at a
non-zero session time `t`, then one sample outside the circle, make
`lc_hasLaunched` true and `lc_getLaunchTime` equal to `t`. -/
theorem C1_launch_detection (E : Geo) (s : LaunchControl) (t t2 : Int) (a b : GpsSample)
    (hc : E.gc_isValidGeoCircle s.g_geoCircle = true) (hl : s.g_hasLaunched = false)
    (_h0 : s.g_startTime = 0)
    (ha : E.gc_isPointInGeoCircle a.point s.g_geoCircle = true) (hv : a.speed < 3)
    (hb : E.gc_isPointInGeoCircle b.point s.g_geoCircle = false) (ht : t ≠ 0) :
    lc_hasLaunched (lc_supplyGpsSample E t2 (lc_supplyGpsSample E t s a) b) = true ∧
      lc_getLaunchTime (lc_supplyGpsSample E t2 (lc_supplyGpsSample E t s a) b) = t := by
  rw [lc_supply_inside_stamp E t s a hc hl ha (Or.inr hv)]
  rw [lc_supply_outside E t2 { s with g_startTime := t } b hc hl hb]
  simp [lc_hasLaunched, lc_getLaunchTime, ht]

/-- C1, witness: the amended claim at session time 5 on the demo track. -/
theorem C1_launch_detection_witness :
    lc_hasLaunched (lc_supplyGpsSample gridGeo 6
        (lc_supplyGpsSample gridGeo 5 ⟨0, ⟨⟨1, 1⟩, 20⟩, false⟩ (fixAtStart 1)) (fixAway 10)) = true ∧
      lc_getLaunchTime (lc_supplyGpsSample gridGeo 6
        (lc_supplyGpsSample gridGeo 5 ⟨0, ⟨⟨1, 1⟩, 20⟩, false⟩ (fixAtStart 1)) (fixAway 10)) = 5 :=
  C1_launch_detection gridGeo ⟨0, ⟨⟨1, 1⟩, 20⟩, false⟩ 5 6 (fixAtStart 1) (fixAway 10)
    grid_circle_valid rfl rfl (grid_fixAtStart_inside 1) (by norm_num [fixAtStart])
    (grid_fixAway_outside 10) (by decide)

/-- C1, counterexample: the cold start.  The state is configured, not launched
and without candidate, the first sample is inside the start circle with speed 1
at session time 0, the second is outside; `lc_hasLaunched` is false. -/
theorem C1_cold_start_not_launched :
    gridGeo.gc_isValidGeoCircle demoLaunchControl.g_geoCircle = true ∧
      demoLaunchControl.g_hasLaunched = false ∧ demoLaunchControl.g_startTime = 0 ∧
      gridGeo.gc_isPointInGeoCircle (fixAtStart 1).point demoLaunchControl.g_geoCircle = true ∧
      (fixAtStart 1).speed < 3 ∧
      gridGeo.gc_isPointInGeoCircle (fixAway 10).point demoLaunchControl.g_geoCircle = false ∧
      lc_hasLaunched (lc_supplyGpsSample gridGeo 1000
        (lc_supplyGpsSample gridGeo 0 demoLaunchControl (fixAtStart 1)) (fixAway 10)) = false := by
  rw [demoLaunchControl_eq]
  refine ⟨grid_circle_valid, rfl, rfl, grid_fixAtStart_inside 1, by norm_num [fixAtStart],
    grid_fixAway_outside 10, ?_⟩
  rw [lc_supply_inside_stamp gridGeo 0 ⟨0, ⟨⟨1, 1⟩, 20⟩, false⟩ (fixAtStart 1)
    grid_circle_valid rfl (grid_fixAtStart_inside 1) (Or.inl rfl)]
  rw [lc_supply_outside gridGeo 1000 ⟨0, ⟨⟨1, 1⟩, 20⟩, false⟩ (fixAway 10)
    grid_circle_valid rfl (grid_fixAway_outside 10)]
  simp [lc_hasLaunched]

/-- C2: after `lc_setup`, if no supplied sample lies inside the start circle,
then after every sample (after every prefix of the sequence) `lc_hasLaunched`
is false and `lc_getLaunchTime` is 0. -/
theorem C2_no_launch_without_entry (E : Geo) (s0 : LaunchControl) (track : Track) (r : ℚ)
    (xs : List (Int × GpsSample))
    (ho : ∀ x ∈ xs, E.gc_isPointInGeoCircle x.2.point
      (lc_setup E s0 track r).g_geoCircle = false) (n : Nat) :
    lc_hasLaunched (lc_supplyAll E (lc_setup E s0 track r) (xs.take n)) = false ∧
      lc_getLaunchTime (lc_supplyAll E (lc_setup E s0 track r) (xs.take n)) = 0 := by
  have h := lc_supplyAll_outside E (xs.take n) (lc_setup E s0 track r) rfl rfl
    (fun x hx => ho x (List.mem_of_mem_take hx))
  rw [h]
  simp [lc_hasLaunched, lc_getLaunchTime, lc_setup, lc_reset]

/-- C2, witness: two samples away from the start circle of the demo track. -/
theorem C2_no_launch_without_entry_witness :
    lc_hasLaunched (lc_supplyAll gridGeo (lc_setup gridGeo ⟨7, ⟨⟨0, 0⟩, 0⟩, true⟩ demoTrack 20)
        ([(5, fixAway 1), (6, fixAway 10)].take 2)) = false ∧
      lc_getLaunchTime (lc_supplyAll gridGeo (lc_setup gridGeo ⟨7, ⟨⟨0, 0⟩, 0⟩, true⟩ demoTrack 20)
        ([(5, fixAway 1), (6, fixAway 10)].take 2)) = 0 :=
  C2_no_launch_without_entry gridGeo ⟨7, ⟨⟨0, 0⟩, 0⟩, true⟩ demoTrack 20
    [(5, fixAway 1), (6, fixAway 10)]
    (by
      intro x hx
      have hcirc : (lc_setup gridGeo ⟨7, ⟨⟨0, 0⟩, 0⟩, true⟩ demoTrack 20).g_geoCircle
          = ⟨⟨1, 1⟩, 20⟩ := by simp [lc_setup, lc_reset, gridGeo, demoTrack]
      rw [hcirc]
      simp only [List.mem_cons, List.mem_singleton, List.not_mem_nil, or_false] at hx
      rcases hx with rfl | rfl
      · exact grid_fixAway_outside 1
      · exact grid_fixAway_outside 10) 2

/-- With a candidate recorded, a configured and not yet launched state launches
on the first sample outside the start circle, provided the samples inside the
circle are not below the speed threshold. -/
theorem lc_supplyAll_candidate (E : Geo) (xs : List (Int × GpsSample)) (s : LaunchControl)
    (hc : E.gc_isValidGeoCircle s.g_geoCircle = true) (hl : s.g_hasLaunched = false)
    (ht : s.g_startTime ≠ 0)
    (hv : ∀ x ∈ xs, E.gc_isPointInGeoCircle x.2.point s.g_geoCircle = true → ¬ x.2.speed < 3) :
    (lc_supplyAll E s xs).g_hasLaunched = true ↔
      ∃ y ∈ xs, E.gc_isPointInGeoCircle y.2.point s.g_geoCircle = false := by
  induction xs with
  | nil => simp [lc_supplyAll, hl]
  | cons x xs ih =>
    have ih2 := ih fun y hy => hv y (List.mem_cons_of_mem _ hy)
    simp only [lc_supplyAll]
    cases hi : E.gc_isPointInGeoCircle x.2.point s.g_geoCircle with
    | true =>
      rw [lc_supply_inside_keep E x.1 s x.2 hi ht (hv x (List.mem_cons_self _ _) hi), ih2]
      simp [hi]
    | false =>
      rw [lc_supply_outside E x.1 s x.2 hc hl hi, lc_supplyAll_launched E xs _ (by simpa using ht)]
      simp [ht, hi]

/-- Without a candidate, a configured and not yet launched state launches
exactly when a sample inside the start circle at a non-zero session time comes
before a sample outside it, provided the samples inside the circle are not
below the speed threshold. -/
theorem lc_supplyAll_no_candidate (E : Geo) (xs : List (Int × GpsSample)) (s : LaunchControl)
    (hc : E.gc_isValidGeoCircle s.g_geoCircle = true) (hl : s.g_hasLaunched = false)
    (ht : s.g_startTime = 0)
    (hv : ∀ x ∈ xs, E.gc_isPointInGeoCircle x.2.point s.g_geoCircle = true → ¬ x.2.speed < 3) :
    (lc_supplyAll E s xs).g_hasLaunched = true ↔
      ∃ pre post, xs = pre ++ post ∧
        (∃ x ∈ pre, E.gc_isPointInGeoCircle x.2.point s.g_geoCircle = true ∧ x.1 ≠ 0) ∧
        (∃ y ∈ post, E.gc_isPointInGeoCircle y.2.point s.g_geoCircle = false) := by
  induction xs generalizing s with
  | nil =>
    simp only [lc_supplyAll, hl, Bool.false_eq_true, false_iff]
    rintro ⟨pre, post, h, ⟨x, hx, -⟩, -⟩
    have : pre = [] := (List.append_eq_nil.mp h.symm).1
    simp [this] at hx
  | cons x xs ih =>
    have hv2 : ∀ y ∈ xs, E.gc_isPointInGeoCircle y.2.point s.g_geoCircle = true →
        ¬ y.2.speed < 3 := fun y hy => hv y (List.mem_cons_of_mem _ hy)
    simp only [lc_supplyAll]
    by_cases hgood : E.gc_isPointInGeoCircle x.2.point s.g_geoCircle = true ∧ x.1 ≠ 0
    · -- the sample records a candidate
      rw [lc_supply_inside_stamp E x.1 s x.2 hc hl hgood.1 (Or.inl ht)]
      rw [lc_supplyAll_candidate E xs { s with g_startTime := x.1 } hc hl hgood.2 hv2]
      constructor
      · rintro ⟨y, hy, hout⟩
        exact ⟨[x], xs, rfl, ⟨x, List.mem_singleton_self x, hgood⟩, ⟨y, hy, hout⟩⟩
      · rintro ⟨pre, post, h, -, ⟨y, hy, hout⟩⟩
        cases pre with
        | nil =>
          simp only [List.nil_append] at h
          subst h
          rcases List.mem_cons.mp hy with rfl | hy2
          · rw [hgood.1] at hout; cases hout
          · exact ⟨y, hy2, hout⟩
        | cons p pre =>
          simp only [List.cons_append, List.cons.injEq] at h
          exact ⟨y, by rw [h.2]; exact List.mem_append_right _ hy, hout⟩
    · -- the sample leaves the state as it is
      have hsame : lc_supplyGpsSample E x.1 s x.2 = s := by
        cases hi : E.gc_isPointInGeoCircle x.2.point s.g_geoCircle with
        | true =>
          have h0 : x.1 = 0 := by
            by_contra h; exact hgood ⟨hi, h⟩
          rw [lc_supply_inside_stamp E x.1 s x.2 hc hl hi (Or.inl ht), h0, ← ht]
        | false =>
          rw [lc_supply_outside E x.1 s x.2 hc hl hi]
          cases s
          simp_all
      rw [hsame, ih s hc hl ht hv2]
      constructor
      · rintro ⟨pre, post, h, hx, hy⟩
        refine ⟨x :: pre, post, by simp [h], ?_, hy⟩
        obtain ⟨z, hz, hzg⟩ := hx
        exact ⟨z, List.mem_cons_of_mem _ hz, hzg⟩
      · rintro ⟨pre, post, h, ⟨z, hz, hzg⟩, hy⟩
        cases pre with
        | nil => simp at hz
        | cons p pre =>
          simp only [List.cons_append, List.cons.injEq] at h
          rcases List.mem_cons.mp hz with rfl | hz2
          · rw [h.1] at hgood; exact absurd hzg hgood
          · exact ⟨pre, post, h.2, ⟨z, hz2, hzg⟩, hy⟩

/-- C3 (as amended): the speed test does not filter out a drive-through.  After
`lc_setup` with a valid start circle, if every sample inside the circle has
speed at least 3.0, then `lc_hasLaunched` becomes true exactly when some sample
inside the circle, taken at a non-zero session time, comes before a sample
outside the circle. -/
theorem C3_drive_through_launches (E : Geo) (s0 : LaunchControl) (track : Track) (r : ℚ)
    (xs : List (Int × GpsSample))
    (hc : E.gc_isValidGeoCircle (lc_setup E s0 track r).g_geoCircle = true)
    (hv : ∀ x ∈ xs, E.gc_isPointInGeoCircle x.2.point (lc_setup E s0 track r).g_geoCircle = true →
      3 ≤ x.2.speed) :
    lc_hasLaunched (lc_supplyAll E (lc_setup E s0 track r) xs) = true ↔
      ∃ pre post, xs = pre ++ post ∧
        (∃ x ∈ pre, E.gc_isPointInGeoCircle x.2.point (lc_setup E s0 track r).g_geoCircle = true ∧
          x.1 ≠ 0) ∧
        (∃ y ∈ post, E.gc_isPointInGeoCircle y.2.point (lc_setup E s0 track r).g_geoCircle = false) :=
  lc_supplyAll_no_candidate E xs (lc_setup E s0 track r) hc rfl rfl
    (fun x hx hi => not_lt.mpr (hv x hx hi))

/-- The start circle that `lc_setup` builds for the demo track. -/
theorem demo_setup_circle (s0 : LaunchControl) :
    (lc_setup gridGeo s0 demoTrack 20).g_geoCircle = ⟨⟨1, 1⟩, 20⟩ := by
  simp [lc_setup, lc_reset, gridGeo, demoTrack]

/-- C3, witness: the amended claim for a pass through the start circle of the
demo track at speed 10. -/
theorem C3_drive_through_launches_witness :
    lc_hasLaunched (lc_supplyAll gridGeo (lc_setup gridGeo ⟨0, ⟨⟨0, 0⟩, 0⟩, false⟩ demoTrack 20)
        [(5, fixAtStart 10), (6, fixAway 10)]) = true ↔
      ∃ pre post : List (Int × GpsSample), [(5, fixAtStart 10), (6, fixAway 10)] = pre ++ post ∧
        (∃ x ∈ pre, gridGeo.gc_isPointInGeoCircle x.2.point
          (lc_setup gridGeo ⟨0, ⟨⟨0, 0⟩, 0⟩, false⟩ demoTrack 20).g_geoCircle = true ∧ x.1 ≠ 0) ∧
        (∃ y ∈ post, gridGeo.gc_isPointInGeoCircle y.2.point
          (lc_setup gridGeo ⟨0, ⟨⟨0, 0⟩, 0⟩, false⟩ demoTrack 20).g_geoCircle = false) :=
  C3_drive_through_launches gridGeo ⟨0, ⟨⟨0, 0⟩, 0⟩, false⟩ demoTrack 20
    [(5, fixAtStart 10), (6, fixAway 10)]
    (by rw [demo_setup_circle]; exact grid_circle_valid)
    (by
      intro x hx _
      simp only [List.mem_cons, List.mem_singleton, List.not_mem_nil, or_false] at hx
      rcases hx with rfl | rfl <;> norm_num [fixAtStart, fixAway])

/-- C3, counterexample: a pass through the start circle at speed 10.  The only
sample inside the circle has speed 10, and `lc_hasLaunched` is true after the
sample that leaves the circle. -/
theorem C3_drive_through_counterexample :
    (∀ x ∈ [((5 : Int), fixAtStart 10), (6, fixAway 10)],
        gridGeo.gc_isPointInGeoCircle x.2.point
          (lc_setup gridGeo ⟨0, ⟨⟨0, 0⟩, 0⟩, false⟩ demoTrack 20).g_geoCircle = true →
        3 ≤ x.2.speed) ∧
      lc_hasLaunched (lc_supplyAll gridGeo (lc_setup gridGeo ⟨0, ⟨⟨0, 0⟩, 0⟩, false⟩ demoTrack 20)
        [(5, fixAtStart 10), (6, fixAway 10)]) = true := by
  constructor
  · intro x hx _
    simp only [List.mem_cons, List.mem_singleton, List.not_mem_nil, or_false] at hx
    rcases hx with rfl | rfl <;> norm_num [fixAtStart, fixAway]
  · have hs : lc_setup gridGeo ⟨0, ⟨⟨0, 0⟩, 0⟩, false⟩ demoTrack 20 = ⟨0, ⟨⟨1, 1⟩, 20⟩, false⟩ := by
      simp [lc_setup, lc_reset, gridGeo, demoTrack]
    rw [hs]
    simp only [lc_supplyAll]
    rw [lc_supply_inside_stamp gridGeo 5 ⟨0, ⟨⟨1, 1⟩, 20⟩, false⟩ (fixAtStart 10)
      grid_circle_valid rfl (grid_fixAtStart_inside 10) (Or.inl rfl)]
    rw [lc_supply_outside gridGeo 6 ⟨5, ⟨⟨1, 1⟩, 20⟩, false⟩ (fixAway 10)
      grid_circle_valid rfl (grid_fixAway_outside 10)]
    simp [lc_hasLaunched]

/-- C4: once `g_hasLaunched` is true, `lc_supplyGpsSample` keeps it true and
keeps the start time and the start circle, so `lc_getLaunchTime` is the same
before and after; `lc_reset` and `lc_setup` clear the flag. -/
theorem C4_launched_is_kept (E : Geo) (now : Int) (s : LaunchControl) (x : GpsSample)
    (track : Track) (r : ℚ) (h : s.g_hasLaunched = true) :
    (lc_supplyGpsSample E now s x).g_hasLaunched = true ∧
      (lc_supplyGpsSample E now s x).g_startTime = s.g_startTime ∧
      (lc_supplyGpsSample E now s x).g_geoCircle = s.g_geoCircle ∧
      lc_getLaunchTime (lc_supplyGpsSample E now s x) = lc_getLaunchTime s ∧
      lc_hasLaunched (lc_reset s) = false ∧
      lc_hasLaunched (lc_setup E s track r) = false := by
  rw [lc_supply_launched E now s x h]
  exact ⟨h, rfl, rfl, rfl, rfl, rfl⟩

/-- C4, witness: a launched state of the demo track and a slow sample at the
start point. -/
theorem C4_launched_is_kept_witness :
    (lc_supplyGpsSample gridGeo 9 ⟨5, ⟨⟨1, 1⟩, 20⟩, true⟩ (fixAtStart 1)).g_hasLaunched = true ∧
      (lc_supplyGpsSample gridGeo 9 ⟨5, ⟨⟨1, 1⟩, 20⟩, true⟩ (fixAtStart 1)).g_startTime = 5 ∧
      (lc_supplyGpsSample gridGeo 9 ⟨5, ⟨⟨1, 1⟩, 20⟩, true⟩ (fixAtStart 1)).g_geoCircle
        = ⟨⟨1, 1⟩, 20⟩ ∧
      lc_getLaunchTime (lc_supplyGpsSample gridGeo 9 ⟨5, ⟨⟨1, 1⟩, 20⟩, true⟩ (fixAtStart 1))
        = lc_getLaunchTime ⟨5, ⟨⟨1, 1⟩, 20⟩, true⟩ ∧
      lc_hasLaunched (lc_reset ⟨5, ⟨⟨1, 1⟩, 20⟩, true⟩) = false ∧
      lc_hasLaunched (lc_setup gridGeo ⟨5, ⟨⟨1, 1⟩, 20⟩, true⟩ demoTrack 20) = false :=
  C4_launched_is_kept gridGeo 9 ⟨5, ⟨⟨1, 1⟩, 20⟩, true⟩ (fixAtStart 1) demoTrack 20 rfl

/-- C5: after `lc_setup` with a valid start circle, for samples that are all
inside the circle and taken at non-zero session times, of which `x` is the last
one with speed below 3.0, followed by one sample outside the circle, the launch
is detected and `lc_getLaunchTime` is the session time of `x`. -/
theorem C5_sliding_launch_time (E : Geo) (s0 : LaunchControl) (track : Track) (r : ℚ)
    (pre post : List (Int × GpsSample)) (x y : Int × GpsSample)
    (hc : E.gc_isValidGeoCircle (lc_setup E s0 track r).g_geoCircle = true)
    (hin : ∀ z ∈ pre ++ x :: post,
      E.gc_isPointInGeoCircle z.2.point (lc_setup E s0 track r).g_geoCircle = true ∧ z.1 ≠ 0)
    (hx : x.2.speed < 3) (hpost : ∀ z ∈ post, ¬ z.2.speed < 3)
    (hy : E.gc_isPointInGeoCircle y.2.point (lc_setup E s0 track r).g_geoCircle = false) :
    lc_hasLaunched (lc_supplyAll E (lc_setup E s0 track r) ((pre ++ x :: post) ++ [y])) = true ∧
      lc_getLaunchTime (lc_supplyAll E (lc_setup E s0 track r) ((pre ++ x :: post) ++ [y]))
        = x.1 := by
  obtain ⟨hl1, hc1⟩ := lc_supplyAll_inside E pre (lc_setup E s0 track r) rfl
    (fun z hz => (hin z (List.mem_append_left _ hz)).1)
  have hxin := hin x (List.mem_append_right _ (List.mem_cons_self _ _))
  rw [lc_supplyAll_append, lc_supplyAll_append]
  simp only [lc_supplyAll]
  generalize lc_supplyAll E (lc_setup E s0 track r) pre = s1 at hl1 hc1
  rw [← hc1] at hc hxin hy hin
  rw [lc_supply_inside_stamp E x.1 s1 x.2 hc hl1 hxin.1 (Or.inr hx)]
  rw [lc_supplyAll_inside_keep E post { s1 with g_startTime := x.1 } hxin.2
    (fun z hz => ⟨(hin z (List.mem_append_right _ (List.mem_cons_of_mem _ hz))).1, hpost z hz⟩)]
  rw [lc_supply_outside E y.1 { s1 with g_startTime := x.1 } y.2 hc hl1 hy]
  simp [lc_hasLaunched, lc_getLaunchTime, hxin.2]

/-- C5, witness: the vehicle enters the start circle of the demo track at time
5, idles at times 7 and 9, rolls at time 11 and has left at time 12; the launch
time is 9. -/
theorem C5_sliding_launch_time_witness :
    lc_hasLaunched (lc_supplyAll gridGeo (lc_setup gridGeo ⟨0, ⟨⟨0, 0⟩, 0⟩, false⟩ demoTrack 20)
        (([(5, fixAtStart 10), (7, fixAtStart 1)] ++ (9, fixAtStart 2) :: [(11, fixAtStart 4)])
          ++ [(12, fixAway 10)])) = true ∧
      lc_getLaunchTime (lc_supplyAll gridGeo
        (lc_setup gridGeo ⟨0, ⟨⟨0, 0⟩, 0⟩, false⟩ demoTrack 20)
        (([(5, fixAtStart 10), (7, fixAtStart 1)] ++ (9, fixAtStart 2) :: [(11, fixAtStart 4)])
          ++ [(12, fixAway 10)])) = ((9 : Int), fixAtStart 2).1 :=
  C5_sliding_launch_time gridGeo ⟨0, ⟨⟨0, 0⟩, 0⟩, false⟩ demoTrack 20
    [(5, fixAtStart 10), (7, fixAtStart 1)] [(11, fixAtStart 4)] (9, fixAtStart 2)
    (12, fixAway 10)
    (by rw [demo_setup_circle]; exact grid_circle_valid)
    (by
      intro z hz
      rw [demo_setup_circle]
      simp only [List.cons_append, List.nil_append, List.mem_cons, List.mem_singleton,
        List.not_mem_nil, or_false] at hz
      rcases hz with rfl | rfl | rfl | rfl <;>
        exact ⟨grid_fixAtStart_inside _, by decide⟩)
    (by norm_num [fixAtStart])
    (by
      intro z hz
      simp only [List.mem_singleton] at hz
      subst hz
      norm_num [fixAtStart])
    (by rw [demo_setup_circle]; exact grid_fixAway_outside 10)

/-! ## Start/finish processing: helper lemmas -/

open GpsState

/-- The first-crossing branch of `processStartFinish`. -/
theorem processStartFinish_first (E : Geo) (now : Int) (s : GpsState) (x : GpsSample)
    (track : Track) (r : ℚ) (h : s.g_lastStartFinishTimestamp = 0) :
    processStartFinish E now s x track r =
      if (lc_supplyGpsSample E now s.lc x).g_hasLaunched = true then
        ({ s with
            lc := lc_supplyGpsSample E now s.lc x
            g_lastStartFinishTimestamp := lc_getLaunchTime (lc_supplyGpsSample E now s.lc x)
            g_lastSectorTimestamp := lc_getLaunchTime (lc_supplyGpsSample E now s.lc x)
            g_prevAtStartFinish := 1
            g_sector := 0 }, true)
      else ({ s with lc := lc_supplyGpsSample E now s.lc x }, false) := by
  simp [processStartFinish, isStartCrossedYet, h, lc_hasLaunched]

/-- The running branch of `processStartFinish`. -/
theorem processStartFinish_running (E : Geo) (now : Int) (s : GpsState) (x : GpsSample)
    (track : Track) (r : ℚ) (h : s.g_lastStartFinishTimestamp ≠ 0) :
    processStartFinish E now s x track r =
      if E.gc_isPointInGeoCircle x.point (E.gc_createGeoCircle (E.getFinishPoint track) r) = true ∧
          s.g_prevAtStartFinish = 0 ∧ 10000 < now - s.g_lastStartFinishTimestamp then
        ({ s with
            g_atStartFinish := 1
            g_lapCount := s.g_lapCount + 1
            g_lastLapTime := now - s.g_lastStartFinishTimestamp
            g_lastStartFinishTimestamp := now
            g_prevAtStartFinish := 1 }, true)
      else
        ({ s with
            g_atStartFinish := boolToInt (E.gc_isPointInGeoCircle x.point
              (E.gc_createGeoCircle (E.getFinishPoint track) r))
            g_prevAtStartFinish := 0 }, false) := by
  cases hin : E.gc_isPointInGeoCircle x.point (E.gc_createGeoCircle (E.getFinishPoint track) r)
  · simp [processStartFinish, isStartCrossedYet, h, hin, boolToInt]
  · by_cases hp : s.g_prevAtStartFinish = 0
    · by_cases he : 10000 < now - s.g_lastStartFinishTimestamp
      · have he2 : 10000 + s.g_lastStartFinishTimestamp < now := by omega
        simp [processStartFinish, isStartCrossedYet, h, hin, boolToInt, hp, he, he2,
          START_FINISH_TIME_THRESHOLD]
      · have he2 : now ≤ 10000 + s.g_lastStartFinishTimestamp := by omega
        have he3 : ¬ 10000 + s.g_lastStartFinishTimestamp < now := by omega
        simp [processStartFinish, isStartCrossedYet, h, hin, boolToInt, hp, he, he2, he3,
          START_FINISH_TIME_THRESHOLD]
    · simp [processStartFinish, isStartCrossedYet, h, hin, boolToInt, hp]

/-! ## Start/finish processing: the claims -/

/-- C6: in the running state, `processStartFinish` reports a crossing exactly
when the sample is inside the finish circle, the stored debounce flag is 0 and
the time elapsed since the last crossing exceeds 10000; on a crossing the lap
count grows by one, the last lap time is the elapsed time, the last-crossing
timestamp is the session time and the debounce flag is set; otherwise lap
count, last lap time and last-crossing timestamp are kept. -/
theorem C6_running_crossing (E : Geo) (now : Int) (s : GpsState) (x : GpsSample)
    (track : Track) (r : ℚ) (hrun : s.g_lastStartFinishTimestamp ≠ 0) :
    ((processStartFinish E now s x track r).2 = true ↔
        (E.gc_isPointInGeoCircle x.point (E.gc_createGeoCircle (E.getFinishPoint track) r) = true ∧
          s.g_prevAtStartFinish = 0 ∧ 10000 < now - s.g_lastStartFinishTimestamp)) ∧
      ((processStartFinish E now s x track r).2 = true →
        (processStartFinish E now s x track r).1.g_lapCount = s.g_lapCount + 1 ∧
        (processStartFinish E now s x track r).1.g_lastLapTime
          = now - s.g_lastStartFinishTimestamp ∧
        (processStartFinish E now s x track r).1.g_lastStartFinishTimestamp = now ∧
        (processStartFinish E now s x track r).1.g_prevAtStartFinish = 1) ∧
      ((processStartFinish E now s x track r).2 = false →
        (processStartFinish E now s x track r).1.g_lapCount = s.g_lapCount ∧
        (processStartFinish E now s x track r).1.g_lastLapTime = s.g_lastLapTime ∧
        (processStartFinish E now s x track r).1.g_lastStartFinishTimestamp
          = s.g_lastStartFinishTimestamp) := by
  rw [processStartFinish_running E now s x track r hrun]
  split_ifs with hc
  · simp [hc]
  · simp [hc]


/-- The finish circle of the demo track contains the fix at the start point. -/
theorem grid_finish_inside (v : ℚ) :
    gridGeo.gc_isPointInGeoCircle (fixAtStart v).point
      (gridGeo.gc_createGeoCircle (gridGeo.getFinishPoint demoTrack) demoRadius) = true := by
  simp [gridGeo, gridDistance, fixAtStart, demoTrack, demoRadius, degreesToMeters]
  norm_num

/-- C6, witness: the crossing test in the running demo session at time 20000. -/
theorem C6_running_crossing_witness :
    demoRunning.g_lastStartFinishTimestamp ≠ 0 ∧
      ((processStartFinish gridGeo 20000 demoRunning (fixAtStart 10) demoTrack demoRadius).2 = true ↔
        (gridGeo.gc_isPointInGeoCircle (fixAtStart 10).point
            (gridGeo.gc_createGeoCircle (gridGeo.getFinishPoint demoTrack) demoRadius) = true ∧
          demoRunning.g_prevAtStartFinish = 0 ∧
          10000 < 20000 - demoRunning.g_lastStartFinishTimestamp)) :=
  ⟨by decide,
    (C6_running_crossing gridGeo 20000 demoRunning (fixAtStart 10) demoTrack demoRadius
      (by decide)).1⟩

/-- C7, the code at the failing input: the vehicle stays inside the finish
circle for three consecutive samples.  The first sample reports a crossing, the
second reports none and leaves the debounce flag at 0 although the sample is
inside the circle, and the third reports a crossing again: the lap count is 2
after a single entry into the circle. -/
theorem C7_flag_cleared_inside_circle :
    gridGeo.gc_isPointInGeoCircle (fixAtStart 10).point
        (gridGeo.gc_createGeoCircle (gridGeo.getFinishPoint demoTrack) demoRadius) = true ∧
      (processStartFinish gridGeo 15000 demoRunning (fixAtStart 10) demoTrack demoRadius).2
        = true ∧
      (processStartFinish gridGeo 26000
        (processStartFinishAll gridGeo demoRunning [demoCall 15000 (fixAtStart 10)])
        (fixAtStart 10) demoTrack demoRadius).2 = false ∧
      (processStartFinishAll gridGeo demoRunning
        [demoCall 15000 (fixAtStart 10), demoCall 26000 (fixAtStart 10)]).g_prevAtStartFinish
        = 0 ∧
      (processStartFinish gridGeo 26001
        (processStartFinishAll gridGeo demoRunning
          [demoCall 15000 (fixAtStart 10), demoCall 26000 (fixAtStart 10)])
        (fixAtStart 10) demoTrack demoRadius).2 = true ∧
      demoRunning.g_lapCount = 0 ∧
      (processStartFinishAll gridGeo demoRunning
        [demoCall 15000 (fixAtStart 10), demoCall 26000 (fixAtStart 10),
          demoCall 26001 (fixAtStart 10)]).g_lapCount = 2 := by
  have hin := grid_finish_inside 10
  refine ⟨hin, ?_, ?_, ?_, ?_, ?_, ?_⟩ <;>
    simp [processStartFinishAll, startFinishStep, demoCall, processStartFinish_running, hin,
      demoRunning, demoLaunched, initGPS, zeroState, boolToInt]

/-- C9: while the start has not been crossed, `processStartFinish` feeds the
sample to launch control and returns true exactly when `lc_hasLaunched` holds
afterwards; then both timestamps become `lc_getLaunchTime`, the sector becomes
0, the debounce flag is set, and lap count and last lap time are kept; when it
returns false only the launch-control variables may differ. -/
theorem C9_first_crossing (E : Geo) (now : Int) (s : GpsState) (x : GpsSample)
    (track : Track) (r : ℚ) (h : s.g_lastStartFinishTimestamp = 0) :
    (processStartFinish E now s x track r).1.lc = lc_supplyGpsSample E now s.lc x ∧
      ((processStartFinish E now s x track r).2 = true ↔
        lc_hasLaunched (lc_supplyGpsSample E now s.lc x) = true) ∧
      ((processStartFinish E now s x track r).2 = true →
        (processStartFinish E now s x track r).1.g_lastStartFinishTimestamp
          = lc_getLaunchTime (lc_supplyGpsSample E now s.lc x) ∧
        (processStartFinish E now s x track r).1.g_lastSectorTimestamp
          = lc_getLaunchTime (lc_supplyGpsSample E now s.lc x) ∧
        (processStartFinish E now s x track r).1.g_sector = 0 ∧
        (processStartFinish E now s x track r).1.g_prevAtStartFinish = 1 ∧
        (processStartFinish E now s x track r).1.g_lapCount = s.g_lapCount ∧
        (processStartFinish E now s x track r).1.g_lastLapTime = s.g_lastLapTime) ∧
      ((processStartFinish E now s x track r).2 = false →
        (processStartFinish E now s x track r).1
          = { s with lc := lc_supplyGpsSample E now s.lc x }) := by
  rw [processStartFinish_first E now s x track r h]
  split_ifs with hc
  · simp [hc, lc_hasLaunched]
  · simp [hc, lc_hasLaunched]

/-- C9, witness: a session of the demo track that awaits the first crossing,
with a candidate recorded at time 5, and a fix away from the start circle. -/
theorem C9_first_crossing_witness :
    ({ demoRunning with
        g_lastStartFinishTimestamp := 0
        lc := ⟨5, ⟨⟨1, 1⟩, 20⟩, false⟩ } : GpsState).g_lastStartFinishTimestamp = 0 ∧
      ((processStartFinish gridGeo 9
          { demoRunning with g_lastStartFinishTimestamp := 0, lc := ⟨5, ⟨⟨1, 1⟩, 20⟩, false⟩ }
          (fixAway 10) demoTrack demoRadius).2 = true ↔
        lc_hasLaunched (lc_supplyGpsSample gridGeo 9 ⟨5, ⟨⟨1, 1⟩, 20⟩, false⟩ (fixAway 10))
          = true) :=
  ⟨rfl, (C9_first_crossing gridGeo 9
    { demoRunning with g_lastStartFinishTimestamp := 0, lc := ⟨5, ⟨⟨1, 1⟩, 20⟩, false⟩ }
    (fixAway 10) demoTrack demoRadius rfl).2.1⟩


/-! ## Location updates: helper lemmas -/

/-- The fields that `processSector` leaves alone. -/
theorem processSector_frame (E : Geo) (now : Int) (s : GpsState) (track : Track) (r : ℚ) :
    (processSector E now s track r).g_distance = s.g_distance ∧
      (processSector E now s track r).g_lapCount = s.g_lapCount ∧
      (processSector E now s track r).g_lastStartFinishTimestamp = s.g_lastStartFinishTimestamp ∧
      (processSector E now s track r).g_activeTrack = s.g_activeTrack := by
  unfold processSector
  simp only []
  split_ifs <;> simp

/-- Lap count, last-crossing timestamp, active track and distance after the
start/finish block of `onLocationUpdated`, in terms of the result of
`processStartFinish`. -/
theorem trackLaps_fields (E : Geo) (now : Int) (s : GpsState) (x : GpsSample)
    (track : Track) (r : ℚ) :
    (trackLaps E now s x track r).g_lapCount
        = (processStartFinish E now s x track r).1.g_lapCount ∧
      (trackLaps E now s x track r).g_lastStartFinishTimestamp
        = (processStartFinish E now s x track r).1.g_lastStartFinishTimestamp ∧
      (trackLaps E now s x track r).g_activeTrack
        = (processStartFinish E now s x track r).1.g_activeTrack ∧
      (trackLaps E now s x track r).g_distance
        = if (processStartFinish E now s x track r).2 = true then
            if (processStartFinish E now s x track r).1.g_lapCount = 0 then
              E.distPythag (E.getStartPoint track) x.point / 1000
            else 0
          else (processStartFinish E now s x track r).1.g_distance := by
  unfold trackLaps
  simp only []
  split_ifs <;> simp_all [processSector_frame, resetGpsDistance, getLapCount]

/-- The fields of the result of `processStartFinish` that the distance
correction depends on. -/
theorem processStartFinish_lap_fields (E : Geo) (now : Int) (s : GpsState) (x : GpsSample)
    (track : Track) (r : ℚ) :
    (processStartFinish E now s x track r).1.g_activeTrack = s.g_activeTrack ∧
      (processStartFinish E now s x track r).1.g_distance = s.g_distance ∧
      ((processStartFinish E now s x track r).2 = false →
        (processStartFinish E now s x track r).1.g_lapCount = s.g_lapCount ∧
        (processStartFinish E now s x track r).1.g_lastStartFinishTimestamp
          = s.g_lastStartFinishTimestamp) ∧
      ((processStartFinish E now s x track r).2 = true →
        (processStartFinish E now s x track r).1.g_lapCount
          = if s.g_lastStartFinishTimestamp = 0 then s.g_lapCount else s.g_lapCount + 1) := by
  by_cases h : s.g_lastStartFinishTimestamp = 0
  · rw [processStartFinish_first E now s x track r h]
    split_ifs <;> simp [h]
  · rw [processStartFinish_running E now s x track r h]
    split_ifs <;> simp [h]


/-- The state in which `onLocationUpdated` runs its start/finish block: the
session is configured if it was not, and the distance since the previous
sample is added. -/
theorem onLocationUpdated_usable (E : Geo) (config : LoggerConfig) (now : Int) (s : GpsState)
    (x : GpsSample) (hq : isGpsSignalUsable x.quality = true) :
    ∃ s2 : GpsState,
      s2.g_lapCount = s.g_lapCount ∧
      s2.g_lastStartFinishTimestamp = s.g_lastStartFinishTimestamp ∧
      onLocationUpdated E config now s x =
        (if s2.startFinishEnabled != 0 then
          match s2.g_activeTrack with
          | none => none
          | some track =>
            some (trackLaps E now s2 x track (degreesToMeters config.radius))
        else some s2).map fun s4 =>
          { s4 with
            g_prevLatitude := x.point.latitude
            g_prevLongitude := x.point.longitude } := by
  by_cases hcfg : s.g_configured = 0
  · refine ⟨{ configure E config s x.point (degreesToMeters config.radius) with
      g_distance := (configure E config s x.point (degreesToMeters config.radius)).g_distance +
        calcDistancesSinceLastSample E
          (configure E config s x.point (degreesToMeters config.radius)) x }, rfl, rfl, ?_⟩
    simp [onLocationUpdated, hq, hcfg]
  · refine ⟨{ s with g_distance := s.g_distance + calcDistancesSinceLastSample E s x },
      rfl, rfl, ?_⟩
    simp [onLocationUpdated, hq, hcfg]

/-- C10 (as amended): the distance correction belongs to the first crossing,
not to the first lap.  For a fix processed by `onLocationUpdated` in a session
whose lap count is 0: if the fix is the one on which the first start/finish
crossing is reported (the last-crossing timestamp goes from 0 to the launch
time), the lap count stays 0 and the distance accumulator becomes the
straight-line distance in km from the start point of the active track to the
fix; if the fix takes the lap count to 1, the accumulator becomes 0. -/
theorem C10_first_crossing_distance (E : Geo) (config : LoggerConfig) (now : Int)
    (s s2 : GpsState) (x : GpsSample)
    (h : onLocationUpdated E config now s x = some s2) (hlap : s.g_lapCount = 0) :
    (s.g_lastStartFinishTimestamp = 0 → s2.g_lastStartFinishTimestamp ≠ 0 →
        ∀ track, s2.g_activeTrack = some track →
          s2.g_lapCount = 0 ∧
            s2.g_distance = E.distPythag (E.getStartPoint track) x.point / 1000) ∧
      (s2.g_lapCount = 1 → s2.g_distance = 0) := by
  by_cases hq : isGpsSignalUsable x.quality = true
  · obtain ⟨t, ht1, ht2, ht3⟩ := onLocationUpdated_usable E config now s x hq
    rw [ht3] at h
    by_cases hen : t.startFinishEnabled = 0
    · simp [hen] at h
      subst h
      simp [ht1, ht2, hlap]
      intro h0 h1
      exact absurd h0 h1
    · cases htr : t.g_activeTrack with
      | none => simp [hen, htr] at h
      | some track =>
        simp [hen, htr] at h
        subst h
        obtain ⟨f1, f2, f3, f4⟩ := trackLaps_fields E now t x track (degreesToMeters config.radius)
        obtain ⟨p1, p2, p3, p4⟩ :=
          processStartFinish_lap_fields E now t x track (degreesToMeters config.radius)
        simp only [f1, f2, f3, f4]
        cases hres : (processStartFinish E now t x track (degreesToMeters config.radius)).2 with
        | false =>
          have q := p3 hres
          simp [q.1, q.2, ht1, ht2, hlap]
          intro h0 h1
          exact absurd h0 h1
        | true =>
          have q := p4 hres
          rw [ht1, ht2, hlap] at q
          rw [p1, htr]
          by_cases h0 : s.g_lastStartFinishTimestamp = 0
          · simp [h0] at q
            simp [q]
          · simp [h0] at q
            simp [q, h0]
  · have hs : s2 = s := by
      simp [onLocationUpdated, hq] at h
      exact h.symm
    subst hs
    simp [hlap]
    intro h0 h1
    exact absurd h0 h1


/-- The update of `demoAwaiting` by a fix away from the start circle succeeds. -/
theorem demoAwaiting_update_isSome :
    (onLocationUpdated gridGeo demoConfig 9 demoAwaiting (fixAway 10)).isSome = true := by
  simp [onLocationUpdated, isGpsSignalUsable, fixAway, demoAwaiting, demoRunning, demoLaunched,
    initGPS, zeroState]

/-- C10, witness: the amended claim for the fix that reports the launch of the
demo session. -/
theorem C10_first_crossing_distance_witness :
    ∃ s2 : GpsState,
      onLocationUpdated gridGeo demoConfig 9 demoAwaiting (fixAway 10) = some s2 ∧
      demoAwaiting.g_lapCount = 0 ∧
      ((demoAwaiting.g_lastStartFinishTimestamp = 0 → s2.g_lastStartFinishTimestamp ≠ 0 →
          ∀ track, s2.g_activeTrack = some track →
            s2.g_lapCount = 0 ∧
              s2.g_distance
                = gridGeo.distPythag (gridGeo.getStartPoint track) (fixAway 10).point / 1000) ∧
        (s2.g_lapCount = 1 → s2.g_distance = 0)) :=
  ⟨(onLocationUpdated gridGeo demoConfig 9 demoAwaiting (fixAway 10)).get
      demoAwaiting_update_isSome,
    (Option.some_get demoAwaiting_update_isSome).symm, rfl,
    C10_first_crossing_distance gridGeo demoConfig 9 demoAwaiting _ (fixAway 10)
      (Option.some_get demoAwaiting_update_isSome).symm rfl⟩

/-- C10, counterexample: the fix that takes the lap count of the demo session
from 0 to 1 lies 0.0005 degrees from the start point; afterwards the distance
accumulator is 0, and the straight-line distance from the start point to the
fix is not 0. -/
theorem C10_first_lap_distance_is_zero :
    isGpsSignalUsable (fixNearStart 50).quality = true ∧
      demoRunning.g_lapCount = 0 ∧
      (onLocationUpdated gridGeo demoConfig 20000 demoRunning (fixNearStart 50)).map
        (fun t => (t.g_lapCount, t.g_distance)) = some (1, 0) ∧
      gridGeo.distPythag (gridGeo.getStartPoint demoTrack) (fixNearStart 50).point / 1000
        ≠ 0 := by
  have hin : gridGeo.gc_isPointInGeoCircle (fixNearStart 50).point
      (gridGeo.gc_createGeoCircle (gridGeo.getFinishPoint demoTrack)
        (degreesToMeters demoConfig.radius)) = true := by
    simp [gridGeo, gridDistance, fixNearStart, demoTrack, demoConfig, degreesToMeters,
      metersPerDegree]
    rw [abs_of_pos (by norm_num)]
    norm_num
  have hq : isGpsSignalUsable (fixNearStart 50).quality = true := by decide
  refine ⟨hq, rfl, ?_, ?_⟩
  · have hs : demoRunning.startFinishEnabled = 1 ∧ demoRunning.g_configured = 1 ∧
        demoRunning.g_activeTrack = some demoTrack ∧ demoRunning.sectorEnabled = 0 ∧
        demoRunning.g_lapCount = 0 ∧ demoRunning.g_lastStartFinishTimestamp = 5 ∧
        demoRunning.g_prevAtStartFinish = 0 := ⟨rfl, rfl, rfl, rfl, rfl, rfl, rfl⟩
    obtain ⟨h1, h2, h3, h4, h5, h6, h7⟩ := hs
    simp [onLocationUpdated, hq, trackLaps, processStartFinish_running, hin,
      h1, h2, h3, h4, h5, h6, h7, resetGpsDistance, getLapCount]
  · simp [gridGeo, gridDistance, fixNearStart, demoTrack, metersPerDegree]
    norm_num


/-! ## Sequences of start/finish calls: helper lemmas -/

/-- The candidate start time after a sample is the old one or the session time
of the call. -/
theorem lc_supply_startTime (E : Geo) (now : Int) (s : LaunchControl) (x : GpsSample) :
    (lc_supplyGpsSample E now s x).g_startTime = s.g_startTime ∨
      (lc_supplyGpsSample E now s x).g_startTime = now := by
  unfold lc_supplyGpsSample
  split_ifs <;> simp

/-- The effect of one call on the lap count and on the last-crossing timestamp:
a lap is counted only in the running state, more than 10000 after the last
crossing, and then the timestamp is the session time; otherwise the lap count
is kept, and the timestamp is kept or, in the first-crossing branch, becomes
the launch time. -/
theorem startFinishStep_cases (E : Geo) (s : GpsState) (c : StartFinishCall) :
    (s.g_lastStartFinishTimestamp ≠ 0 ∧ 10000 < c.now - s.g_lastStartFinishTimestamp ∧
        (startFinishStep E s c).g_lapCount = s.g_lapCount + 1 ∧
        (startFinishStep E s c).g_lastStartFinishTimestamp = c.now ∧
        (startFinishStep E s c).lc = s.lc) ∨
      ((startFinishStep E s c).g_lapCount = s.g_lapCount ∧
        (startFinishStep E s c).g_lastStartFinishTimestamp = s.g_lastStartFinishTimestamp ∧
        ((startFinishStep E s c).lc = s.lc ∨
          (s.g_lastStartFinishTimestamp = 0 ∧
            (startFinishStep E s c).lc = lc_supplyGpsSample E c.now s.lc c.gpsSample))) ∨
      (s.g_lastStartFinishTimestamp = 0 ∧
        (startFinishStep E s c).g_lapCount = s.g_lapCount ∧
        (startFinishStep E s c).lc = lc_supplyGpsSample E c.now s.lc c.gpsSample ∧
        (startFinishStep E s c).g_lastStartFinishTimestamp
          = (lc_supplyGpsSample E c.now s.lc c.gpsSample).g_startTime) := by
  unfold startFinishStep
  by_cases h : s.g_lastStartFinishTimestamp = 0
  · rw [processStartFinish_first E c.now s c.gpsSample c.track c.targetRadius h]
    split_ifs with hl
    · right; right
      simp [h, lc_getLaunchTime, lc_hasLaunched, hl]
    · right; left
      simp [h]
  · rw [processStartFinish_running E c.now s c.gpsSample c.track c.targetRadius h]
    split_ifs with hc
    · left
      simp [h, hc.2.2]
    · right; left
      simp

/-- Stored timestamps stay non-negative under a call at a non-negative time. -/
theorem startFinishStep_nonneg (E : Geo) (s : GpsState) (c : StartFinishCall)
    (h1 : 0 ≤ s.g_lastStartFinishTimestamp) (h2 : 0 ≤ s.lc.g_startTime) (hc : 0 ≤ c.now) :
    0 ≤ (startFinishStep E s c).g_lastStartFinishTimestamp ∧
      0 ≤ (startFinishStep E s c).lc.g_startTime := by
  have hs := lc_supply_startTime E c.now s.lc c.gpsSample
  have hs2 : 0 ≤ (lc_supplyGpsSample E c.now s.lc c.gpsSample).g_startTime := by
    rcases hs with h | h <;> rw [h] <;> assumption
  rcases startFinishStep_cases E s c with ⟨-, -, -, e2, e3⟩ | ⟨-, e2, e3 | ⟨-, e3⟩⟩ | ⟨-, -, e3, e2⟩
  · rw [e2, e3]; exact ⟨hc, h2⟩
  · rw [e2, e3]; exact ⟨h1, h2⟩
  · rw [e2, e3]; exact ⟨h1, hs2⟩
  · rw [e2, e3]; exact ⟨hs2, hs2⟩

/-- Stored timestamps stay non-negative under calls at non-negative times. -/
theorem processStartFinishAll_nonneg (E : Geo) (cs : List StartFinishCall) (s : GpsState)
    (h1 : 0 ≤ s.g_lastStartFinishTimestamp) (h2 : 0 ≤ s.lc.g_startTime)
    (hc : ∀ c ∈ cs, 0 ≤ c.now) :
    0 ≤ (processStartFinishAll E s cs).g_lastStartFinishTimestamp ∧
      0 ≤ (processStartFinishAll E s cs).lc.g_startTime := by
  induction cs generalizing s with
  | nil => exact ⟨h1, h2⟩
  | cons c cs ih =>
    obtain ⟨k1, k2⟩ := startFinishStep_nonneg E s c h1 h2 (hc c (List.mem_cons_self _ _))
    exact ih _ k1 k2 fun d hd => hc d (List.mem_cons_of_mem _ hd)

/-- Once the last crossing is at a positive time `t`, calls at times from `t`
on keep the last-crossing timestamp at `t` or later. -/
theorem startFinishStep_lower (E : Geo) (s : GpsState) (c : StartFinishCall) (t : Int)
    (ht : 0 < t) (h1 : t ≤ s.g_lastStartFinishTimestamp) (hc : t ≤ c.now) :
    t ≤ (startFinishStep E s c).g_lastStartFinishTimestamp := by
  rcases startFinishStep_cases E s c with ⟨-, -, -, e2, -⟩ | ⟨-, e2, -⟩ | ⟨e0, -⟩
  · rw [e2]; exact hc
  · rw [e2]; exact h1
  · omega

/-- The same for a sequence of calls. -/
theorem processStartFinishAll_lower (E : Geo) (cs : List StartFinishCall) (s : GpsState)
    (t : Int) (ht : 0 < t) (h1 : t ≤ s.g_lastStartFinishTimestamp)
    (hc : ∀ c ∈ cs, t ≤ c.now) :
    t ≤ (processStartFinishAll E s cs).g_lastStartFinishTimestamp := by
  induction cs generalizing s with
  | nil => exact h1
  | cons c cs ih =>
    exact ih _ (startFinishStep_lower E s c t ht h1 (hc c (List.mem_cons_self _ _)))
      fun d hd => hc d (List.mem_cons_of_mem _ hd)

/-- Minimum lap separation from any state whose stored timestamps are
non-negative. -/
theorem lap_separation_from (E : Geo) (s : GpsState) (c1 c2 : StartFinishCall)
    (mid : List StartFinishCall)
    (h1 : 0 ≤ s.g_lastStartFinishTimestamp)
    (hmid : ∀ c ∈ mid, c1.now ≤ c.now)
    (hinc : (startFinishStep E s c1).g_lapCount = s.g_lapCount + 1)
    (hclose : c2.now - c1.now ≤ 10000) :
    (startFinishStep E (processStartFinishAll E (startFinishStep E s c1) mid) c2).g_lapCount
      = (processStartFinishAll E (startFinishStep E s c1) mid).g_lapCount := by
  have hstep : 0 < c1.now ∧ (startFinishStep E s c1).g_lastStartFinishTimestamp = c1.now := by
    rcases startFinishStep_cases E s c1 with ⟨-, e1, -, e2, -⟩ | ⟨e1, -⟩ | ⟨-, e1, -⟩
    · exact ⟨by omega, e2⟩
    · omega
    · omega
  have hlow := processStartFinishAll_lower E mid (startFinishStep E s c1) c1.now hstep.1
    (le_of_eq hstep.2.symm) hmid
  rcases startFinishStep_cases E (processStartFinishAll E (startFinishStep E s c1) mid) c2 with
    ⟨-, e1, -⟩ | ⟨e1, -⟩ | ⟨-, e1, -⟩
  · omega
  · exact e1
  · exact e1


/-- A sequence of calls followed by more calls. -/
theorem processStartFinishAll_append (E : Geo) (cs ds : List StartFinishCall) (s : GpsState) :
    processStartFinishAll E s (cs ++ ds)
      = processStartFinishAll E (processStartFinishAll E s cs) ds := by
  induction cs generalizing s with
  | nil => rfl
  | cons c cs ih => simp [processStartFinishAll, ih]

/-! ## Sequences of start/finish calls: the claim -/

/-- C8 (as amended): in a session started by `initGPS` and the configuration
block, for calls of `processStartFinish` at non-negative and non-decreasing
session times: if the call `c1` increments the lap count, a later call `c2`
with `c2.now - c1.now ≤ 10000` leaves the lap count as it is. -/
theorem C8_minimum_lap_separation (E : Geo) (config : LoggerConfig) (s : GpsState)
    (p : GeoPoint) (pre mid : List StartFinishCall) (c1 c2 : StartFinishCall)
    (hpos : ∀ c ∈ pre ++ c1 :: (mid ++ [c2]), 0 ≤ c.now)
    (hmono : List.Pairwise (fun a b : StartFinishCall => a.now ≤ b.now)
      (pre ++ c1 :: (mid ++ [c2])))
    (hinc : (startFinishStep E (processStartFinishAll E
        (configure E config (initGPS s) p (degreesToMeters config.radius)) pre) c1).g_lapCount
      = (processStartFinishAll E
        (configure E config (initGPS s) p (degreesToMeters config.radius)) pre).g_lapCount + 1)
    (hclose : c2.now - c1.now ≤ 10000) :
    (startFinishStep E (processStartFinishAll E (startFinishStep E (processStartFinishAll E
        (configure E config (initGPS s) p (degreesToMeters config.radius)) pre) c1) mid)
        c2).g_lapCount
      = (processStartFinishAll E (startFinishStep E (processStartFinishAll E
        (configure E config (initGPS s) p (degreesToMeters config.radius)) pre) c1)
        mid).g_lapCount := by
  have hinv := processStartFinishAll_nonneg E pre
    (configure E config (initGPS s) p (degreesToMeters config.radius))
    (le_of_eq rfl) (le_of_eq rfl) (fun c hc => hpos c (List.mem_append_left _ hc))
  have hm := (List.pairwise_cons.mp (List.pairwise_append.mp hmono).2.1).1
  exact lap_separation_from E _ c1 c2 mid hinv.1
    (fun c hc => hm c (List.mem_append_left _ hc)) hinc hclose

/-- The demo session after the launch (candidate at time 5, circle left at time
6) and a return into the finish circle at time 20000, which the debounce flag
set by the launch keeps from counting. -/
theorem demoFresh_after_return :
    processStartFinishAll gridGeo demoFresh
        [demoCall 5 (fixAtStart 1), demoCall 6 (fixAway 10), demoCall 20000 (fixAtStart 10)]
      = { demoFresh with
          lc := ⟨5, ⟨⟨1, 1⟩, demoRadius⟩, true⟩
          g_lastStartFinishTimestamp := 5
          g_lastSectorTimestamp := 5
          g_sector := 0
          g_atStartFinish := 1
          g_prevAtStartFinish := 0 } := by
  have hv : gridGeo.gc_isValidGeoCircle ⟨⟨1, 1⟩, demoRadius⟩ = true := by
    simp [gridGeo, gridValidPoint, demoRadius, degreesToMeters]
    norm_num
  have hi : gridGeo.gc_isPointInGeoCircle (fixAtStart 1).point ⟨⟨1, 1⟩, demoRadius⟩ = true := by
    simp [gridGeo, gridDistance, fixAtStart, demoRadius, degreesToMeters]
    norm_num
  have ho : gridGeo.gc_isPointInGeoCircle (fixAway 10).point ⟨⟨1, 1⟩, demoRadius⟩ = false := by
    simp [gridGeo, gridDistance, fixAway, demoRadius, degreesToMeters, metersPerDegree]
    norm_num
  have hlc : demoFresh.lc = ⟨0, ⟨⟨1, 1⟩, demoRadius⟩, false⟩ := by
    simp [demoFresh, configure, lc_setup, lc_reset, gridGeo, demoConfig, demoTrack, demoRadius]
  have h0 : demoFresh.g_lastStartFinishTimestamp = 0 := rfl
  have hp : demoFresh.g_prevAtStartFinish = 0 := rfl
  simp only [processStartFinishAll, startFinishStep, demoCall]
  simp [processStartFinish, isStartCrossedYet, lc_supplyGpsSample, isConfigured, lc_hasLaunched,
    isGeoPointInStartArea, isValidStartTime, isSpeedBelowThreshold, lc_getLaunchTime, h0, hp, hlc,
    hv, hi, ho, grid_finish_inside, boolToInt, START_FINISH_TIME_THRESHOLD]

/-- The call at time 20001, one sample after the return into the finish circle,
counts the first lap of the demo session. -/
theorem demoFresh_first_lap :
    (startFinishStep gridGeo (processStartFinishAll gridGeo demoFresh
        [demoCall 5 (fixAtStart 1), demoCall 6 (fixAway 10), demoCall 20000 (fixAtStart 10)])
        (demoCall 20001 (fixAtStart 10))).g_lapCount
      = (processStartFinishAll gridGeo demoFresh
        [demoCall 5 (fixAtStart 1), demoCall 6 (fixAway 10),
          demoCall 20000 (fixAtStart 10)]).g_lapCount + 1 := by
  rw [demoFresh_after_return]
  simp [startFinishStep, demoCall, processStartFinish_running, grid_finish_inside]

/-- C8, witness: the amended claim where the demo session counts its first lap
at time 20001; the
vehicle leaves the finish circle and is back inside at time 25000, which counts
no lap. -/
theorem C8_minimum_lap_separation_witness :
    (demoCall 25000 (fixAtStart 10)).now - (demoCall 20001 (fixAtStart 10)).now ≤ 10000 ∧
      (startFinishStep gridGeo (processStartFinishAll gridGeo (startFinishStep gridGeo
          (processStartFinishAll gridGeo demoFresh
            [demoCall 5 (fixAtStart 1), demoCall 6 (fixAway 10), demoCall 20000 (fixAtStart 10)])
          (demoCall 20001 (fixAtStart 10))) [demoCall 22000 (fixAway 10)])
          (demoCall 25000 (fixAtStart 10))).g_lapCount
        = (processStartFinishAll gridGeo (startFinishStep gridGeo
          (processStartFinishAll gridGeo demoFresh
            [demoCall 5 (fixAtStart 1), demoCall 6 (fixAway 10), demoCall 20000 (fixAtStart 10)])
          (demoCall 20001 (fixAtStart 10))) [demoCall 22000 (fixAway 10)]).g_lapCount :=
  ⟨by decide,
    C8_minimum_lap_separation gridGeo demoConfig zeroState ⟨1, 1⟩
      [demoCall 5 (fixAtStart 1), demoCall 6 (fixAway 10), demoCall 20000 (fixAtStart 10)]
      [demoCall 22000 (fixAway 10)] (demoCall 20001 (fixAtStart 10))
      (demoCall 25000 (fixAtStart 10))
      (by
        intro c hc
        simp only [List.cons_append, List.nil_append, List.mem_cons, List.mem_singleton,
          List.not_mem_nil, or_false] at hc
        rcases hc with rfl | rfl | rfl | rfl | rfl | rfl <;> decide)
      (by simp [demoCall])
      demoFresh_first_lap (by decide)⟩

/-! ## Location updates: samples without a fix -/

/-- A sample without a fix leaves the whole state as it is. -/
theorem onLocationUpdated_no_fix (E : Geo) (config : LoggerConfig) (now : Int) (s : GpsState)
    (x : GpsSample) (h : x.quality = GpsSignalQuality.GPS_QUALITY_NO_FIX) :
    onLocationUpdated E config now s x = some s := by
  simp [onLocationUpdated, isGpsSignalUsable, h]

/-- C12: a sample of quality `GPS_QUALITY_NO_FIX` leaves every variable of the
session as it is (lap, sector, timestamps, debounce flags, distance, configured
flag, previous position, launch control) and adds no notification; the same
holds for every sequence of such samples. -/
theorem C12_no_fix_is_inert (E : Geo) (config : LoggerConfig) (s : GpsState)
    (xs : List (Int × GpsSample))
    (h : ∀ x ∈ xs, x.2.quality = GpsSignalQuality.GPS_QUALITY_NO_FIX) :
    (∀ x ∈ xs, onLocationUpdated E config x.1 s x.2 = some s) ∧
      onLocationUpdatedAll E config s xs = some s := by
  refine ⟨fun x hx => onLocationUpdated_no_fix E config x.1 s x.2 (h x hx), ?_⟩
  induction xs with
  | nil => rfl
  | cons x xs ih =>
    simp only [onLocationUpdatedAll,
      onLocationUpdated_no_fix E config x.1 s x.2 (h x (List.mem_cons_self _ _))]
    exact ih fun y hy => h y (List.mem_cons_of_mem _ hy)

/-- C12, witness: two samples without a fix in the running demo session. -/
theorem C12_no_fix_is_inert_witness :
    (∀ x ∈ [((20000 : Int), fixLost 0), (20500, fixLost 9)],
        onLocationUpdated gridGeo demoConfig x.1 demoRunning x.2 = some demoRunning) ∧
      onLocationUpdatedAll gridGeo demoConfig demoRunning
        [(20000, fixLost 0), (20500, fixLost 9)] = some demoRunning :=
  C12_no_fix_is_inert gridGeo demoConfig demoRunning _
    (by
      intro x hx
      simp only [List.mem_cons, List.mem_singleton, List.not_mem_nil, or_false] at hx
      rcases hx with rfl | rfl <;> rfl)

/-! ## Sector processing -/

/-- `processSector` when the start has been crossed and the current position is
inside the circle of the current sector. -/
theorem processSector_inside (E : Geo) (now : Int) (s : GpsState) (track : Track) (r : ℚ)
    (hrun : s.g_lastStartFinishTimestamp ≠ 0)
    (hin : E.gc_isPointInGeoCircle (getGeoPoint s)
      (E.gc_createGeoCircle (E.getSectorGeoPointAtIndex track s.g_sector) r) = true) :
    processSector E now s track r =
      { s with
        g_atTarget := 1
        g_prevAtTarget := 1
        g_lastSectorTime := now - s.g_lastSectorTimestamp
        g_lastSectorTimestamp := now
        g_lastSector := s.g_sector
        g_sector :=
          if E.areGeoPointsEqual (E.getSectorGeoPointAtIndex track s.g_sector)
              (E.getSectorGeoPointAtIndex track (s.g_sector + 1)) = true then 0
          else s.g_sector + 1 } := by
  unfold processSector
  simp only [isStartCrossedYet, hin, boolToInt]
  split_ifs <;> simp_all

/-- `processSector` when the start has been crossed and the current position is
outside the circle of the current sector. -/
theorem processSector_outside (E : Geo) (now : Int) (s : GpsState) (track : Track) (r : ℚ)
    (hrun : s.g_lastStartFinishTimestamp ≠ 0)
    (hout : E.gc_isPointInGeoCircle (getGeoPoint s)
      (E.gc_createGeoCircle (E.getSectorGeoPointAtIndex track s.g_sector) r) = false) :
    processSector E now s track r = { s with g_atTarget := 0, g_prevAtTarget := 0 } := by
  unfold processSector
  simp [isStartCrossedYet, hrun, hout, boolToInt]

/-- `processSector` before the start has been crossed. -/
theorem processSector_not_started (E : Geo) (now : Int) (s : GpsState) (track : Track) (r : ℚ)
    (h : s.g_lastStartFinishTimestamp = 0) : processSector E now s track r = s := by
  simp [processSector, isStartCrossedYet, h]

/-- C13: when the start has been crossed and the current position is inside the
circle of sector `N = g_sector`, `processSector` sets `g_lastSectorTime` to the
session time minus the previous `g_lastSectorTimestamp`, `g_lastSectorTimestamp`
to the session time, `g_lastSector` to `N`, and `g_sector` to 0 if the point of
sector `N + 1` equals the point of sector `N` (as `areGeoPointsEqual` decides
for the two points) and to `N + 1` otherwise. -/
theorem C13_sector_completion (E : Geo) (now : Int) (s : GpsState) (track : Track) (r : ℚ)
    (hrun : s.g_lastStartFinishTimestamp ≠ 0)
    (hin : E.gc_isPointInGeoCircle (getGeoPoint s)
      (E.gc_createGeoCircle (E.getSectorGeoPointAtIndex track s.g_sector) r) = true) :
    (processSector E now s track r).g_lastSectorTime = now - s.g_lastSectorTimestamp ∧
      (processSector E now s track r).g_lastSectorTimestamp = now ∧
      (processSector E now s track r).g_lastSector = s.g_sector ∧
      (processSector E now s track r).g_sector =
        if E.areGeoPointsEqual (E.getSectorGeoPointAtIndex track s.g_sector)
            (E.getSectorGeoPointAtIndex track (s.g_sector + 1)) = true then 0
        else s.g_sector + 1 := by
  rw [processSector_inside E now s track r hrun hin]
  exact ⟨rfl, rfl, rfl, rfl⟩

/-- The vehicle of `demoAtSector` is inside the circle of sector 0. -/
theorem demoAtSector_inside :
    gridGeo.gc_isPointInGeoCircle (getGeoPoint demoAtSector)
      (gridGeo.gc_createGeoCircle
        (gridGeo.getSectorGeoPointAtIndex demoTrack demoAtSector.g_sector) demoRadius) = true := by
  have h : demoAtSector.g_sector = 0 := rfl
  have hp : getGeoPoint demoAtSector = ⟨1, 2⟩ := rfl
  rw [h, hp]
  simp [gridGeo, gridDistance, demoTrack, demoRadius, degreesToMeters]
  norm_num

/-- C13, witness: the vehicle of the running demo session is at the point of
sector 0 at session time 30000. -/
theorem C13_sector_completion_witness :
    (processSector gridGeo 30000 demoAtSector demoTrack demoRadius).g_lastSectorTime
        = 30000 - demoAtSector.g_lastSectorTimestamp ∧
      (processSector gridGeo 30000 demoAtSector demoTrack demoRadius).g_lastSectorTimestamp
        = 30000 ∧
      (processSector gridGeo 30000 demoAtSector demoTrack demoRadius).g_lastSector
        = demoAtSector.g_sector ∧
      (processSector gridGeo 30000 demoAtSector demoTrack demoRadius).g_sector =
        if gridGeo.areGeoPointsEqual
            (gridGeo.getSectorGeoPointAtIndex demoTrack demoAtSector.g_sector)
            (gridGeo.getSectorGeoPointAtIndex demoTrack (demoAtSector.g_sector + 1)) = true
        then 0
        else demoAtSector.g_sector + 1 :=
  C13_sector_completion gridGeo 30000 demoAtSector demoTrack demoRadius (by decide)
    demoAtSector_inside

/-- C14, the code at the failing input: the demo session is running, the
previous call left `g_prevAtTarget` set, and the vehicle is still inside the
circle of the current sector.  `processSector` records a sector completion at
time 30000, and, the flag set and the vehicle still inside, another one at time
30500: `g_lastSectorTime`, `g_lastSectorTimestamp` and `g_lastSector` change
on both calls. -/
theorem C14_sector_flag_not_tested :
    demoAtSector.g_lastStartFinishTimestamp ≠ 0 ∧ demoAtSector.g_prevAtTarget = 1 ∧
      gridGeo.gc_isPointInGeoCircle (getGeoPoint demoAtSector)
        (gridGeo.gc_createGeoCircle
          (gridGeo.getSectorGeoPointAtIndex demoTrack demoAtSector.g_sector) demoRadius) = true ∧
      (demoAtSector.g_lastSector, demoAtSector.g_lastSectorTime,
        demoAtSector.g_lastSectorTimestamp) = (-1, 0, 5) ∧
      ((processSector gridGeo 30000 demoAtSector demoTrack demoRadius).g_lastSector,
        (processSector gridGeo 30000 demoAtSector demoTrack demoRadius).g_lastSectorTime,
        (processSector gridGeo 30000 demoAtSector demoTrack demoRadius).g_lastSectorTimestamp)
        = (0, 29995, 30000) ∧
      (processSector gridGeo 30000 demoAtSector demoTrack demoRadius).g_prevAtTarget = 1 ∧
      (processSector gridGeo 30000 demoAtSector demoTrack demoRadius).g_sector = 0 ∧
      ((processSector gridGeo 30500
          (processSector gridGeo 30000 demoAtSector demoTrack demoRadius)
          demoTrack demoRadius).g_lastSectorTime,
        (processSector gridGeo 30500
          (processSector gridGeo 30000 demoAtSector demoTrack demoRadius)
          demoTrack demoRadius).g_lastSectorTimestamp) = (500, 30500) := by
  have h1 := processSector_inside gridGeo 30000 demoAtSector demoTrack demoRadius (by decide)
    demoAtSector_inside
  have hs : (processSector gridGeo 30000 demoAtSector demoTrack demoRadius).g_sector = 0 := by
    rw [h1]
    simp [gridGeo, demoTrack, demoAtSector, demoRunning, demoLaunched]
  have hl :
      (processSector gridGeo 30000 demoAtSector demoTrack demoRadius).g_lastStartFinishTimestamp
        ≠ 0 := by
    rw [h1]; decide
  have hin2 : gridGeo.gc_isPointInGeoCircle
      (getGeoPoint (processSector gridGeo 30000 demoAtSector demoTrack demoRadius))
      (gridGeo.gc_createGeoCircle (gridGeo.getSectorGeoPointAtIndex demoTrack
        (processSector gridGeo 30000 demoAtSector demoTrack demoRadius).g_sector)
        demoRadius) = true := by
    rw [hs]
    have hp : getGeoPoint (processSector gridGeo 30000 demoAtSector demoTrack demoRadius)
        = getGeoPoint demoAtSector := by rw [h1]; rfl
    rw [hp]
    exact demoAtSector_inside
  have h2 := processSector_inside gridGeo 30500 _ demoTrack demoRadius hl hin2
  refine ⟨by decide, rfl, demoAtSector_inside, rfl, ?_, ?_, hs, ?_⟩
  · rw [h1]; rfl
  · rw [h1]
  · rw [h2, h1]; rfl

/-! ## Reconfiguration -/

/-- C16 (as amended): after `gpsConfigChanged`, the next usable fix is
evaluated in the state that the configuration block produces: the track is
selected again and launch control is set up again by `lc_setup`, while the
lap/sector state (lap count, sector, last sector, the two timestamps, the two
debounce flags, last lap and sector time, distance) is kept as it was. -/
theorem C16_reconfiguration (E : Geo) (config : LoggerConfig) (now : Int) (s : GpsState)
    (x : GpsSample) (hq : isGpsSignalUsable x.quality = true) :
    onLocationUpdated E config now (gpsConfigChanged s) x
        = onLocationUpdated E config now
          (configure E config (gpsConfigChanged s) x.point (degreesToMeters config.radius)) x ∧
      (configure E config (gpsConfigChanged s) x.point (degreesToMeters config.radius)).g_activeTrack
        = some (if config.auto_detect then E.auto_configure_track config.track x.point
            else config.track) ∧
      (configure E config (gpsConfigChanged s) x.point (degreesToMeters config.radius)).lc
        = lc_setup E s.lc (if config.auto_detect then E.auto_configure_track config.track x.point
            else config.track) (degreesToMeters config.radius) ∧
      (configure E config (gpsConfigChanged s) x.point (degreesToMeters config.radius))
        = { s with
            g_configured := 1
            g_activeTrack := (configure E config (gpsConfigChanged s) x.point
              (degreesToMeters config.radius)).g_activeTrack
            lc := (configure E config (gpsConfigChanged s) x.point
              (degreesToMeters config.radius)).lc
            startFinishEnabled := (configure E config (gpsConfigChanged s) x.point
              (degreesToMeters config.radius)).startFinishEnabled
            sectorEnabled := (configure E config (gpsConfigChanged s) x.point
              (degreesToMeters config.radius)).sectorEnabled } := by
  refine ⟨?_, rfl, rfl, rfl⟩
  simp [onLocationUpdated, hq, gpsConfigChanged, configure]

/-- C16, witness: a fix away from the start in the reconfigured demo session. -/
theorem C16_reconfiguration_witness :
    (configure gridGeo demoConfig (gpsConfigChanged demoRunning) (fixAway 10).point
        (degreesToMeters demoConfig.radius)).g_activeTrack
      = some (if demoConfig.auto_detect then
          gridGeo.auto_configure_track demoConfig.track (fixAway 10).point
        else demoConfig.track) :=
  (C16_reconfiguration gridGeo demoConfig 20000 demoRunning (fixAway 10) (by decide)).2.1

/-- C16, counterexample: the demo session has counted 3 laps, its sector is 0
and its last crossing is at time 5.  After `gpsConfigChanged` the state in which
the next usable fix is evaluated still has lap count 3, sector 0 and timestamp
5, not the values 0, -1 and 0 of `initGPS`, and the lap count after the fix is
3. -/
theorem C16_lap_state_not_reset :
    isGpsSignalUsable (fixAway 10).quality = true ∧
      (stateAtEvaluation gridGeo demoConfig
        (gpsConfigChanged { demoRunning with g_lapCount := 3 }) (fixAway 10).point).g_lapCount
        = 3 ∧
      (stateAtEvaluation gridGeo demoConfig
        (gpsConfigChanged { demoRunning with g_lapCount := 3 }) (fixAway 10).point).g_sector
        = 0 ∧
      (stateAtEvaluation gridGeo demoConfig
        (gpsConfigChanged { demoRunning with g_lapCount := 3 })
        (fixAway 10).point).g_lastStartFinishTimestamp = 5 ∧
      ((initGPS demoRunning).g_lapCount, (initGPS demoRunning).g_sector,
        (initGPS demoRunning).g_lastStartFinishTimestamp) = (0, -1, 0) ∧
      (onLocationUpdated gridGeo demoConfig 20000
        (gpsConfigChanged { demoRunning with g_lapCount := 3 }) (fixAway 10)).map
        (fun t => t.g_lapCount) = some 3 := by
  have hout : gridGeo.gc_isPointInGeoCircle (fixAway 10).point
      (gridGeo.gc_createGeoCircle (gridGeo.getFinishPoint demoTrack)
        (degreesToMeters demoConfig.radius)) = false := by
    simp [gridGeo, gridDistance, fixAway, demoTrack, demoConfig, degreesToMeters,
      metersPerDegree]
    norm_num
  have hq : isGpsSignalUsable (fixAway 10).quality = true := by decide
  have hen : isStartFinishEnabled gridGeo demoTrack = true := by
    simp [isStartFinishEnabled, gridGeo, gridValidPoint, demoTrack]
  have hsec : isSectorTrackingEnabled gridGeo demoConfig demoTrack = false := by
    simp [isSectorTrackingEnabled, gridGeo, demoConfig]
  have hcfg : demoConfig.auto_detect = false ∧ demoConfig.track = demoTrack := ⟨rfl, rfl⟩
  refine ⟨hq, rfl, rfl, rfl, rfl, ?_⟩
  simp [onLocationUpdated, hq, gpsConfigChanged, configure, hcfg.1, hcfg.2, hen, hsec, boolToInt,
    trackLaps, demoRunning, demoLaunched, processStartFinish_running, hout]

/-! ## Location updates away from every circle -/

/-- With no candidate recorded and no launch, a sample outside the start circle
leaves launch control as it is. -/
theorem lc_supply_outside_same (E : Geo) (now : Int) (s : LaunchControl) (x : GpsSample)
    (ht : s.g_startTime = 0) (hl : s.g_hasLaunched = false)
    (ho : E.gc_isPointInGeoCircle x.point s.g_geoCircle = false) :
    lc_supplyGpsSample E now s x = s := by
  have h := lc_supplyAll_outside E [(now, x)] s ht hl (by simpa using ho)
  simpa [lc_supplyAll] using h

/-- The start/finish block of `onLocationUpdated` when `processStartFinish`
reports no crossing. -/
theorem trackLaps_no_lap (E : Geo) (now : Int) (s : GpsState) (x : GpsSample)
    (track : Track) (r : ℚ) (h : (processStartFinish E now s x track r).2 = false) :
    trackLaps E now s x track r =
      if (processStartFinish E now s x track r).1.sectorEnabled != 0 then
        processSector E now
          { (processStartFinish E now s x track r).1 with
            notifications := Notification.addGpsSample x.point now ::
              (processStartFinish E now s x track r).1.notifications } track r
      else
        { (processStartFinish E now s x track r).1 with
          notifications := Notification.addGpsSample x.point now ::
            (processStartFinish E now s x track r).1.notifications } := by
  simp [trackLaps, h]

/-- `keepsTiming` is transitive. -/
theorem keepsTiming_trans (a b c : GpsState) (h1 : keepsTiming a b) (h2 : keepsTiming b c) :
    keepsTiming a c := by
  obtain ⟨a1, a2, a3, a4, a5, a6, a7, a8, a9, a10, a11⟩ := h1
  obtain ⟨b1, b2, b3, b4, b5, b6, b7, b8, b9, b10, b11⟩ := h2
  exact ⟨a1.trans b1, a2.trans b2, a3.trans b3, a4.trans b4, a5.trans b5, a6.trans b6,
    a7.trans b7, a8.trans b8, a9.trans b9, a10.trans b10, a11.trans b11⟩

/-- `processSector` records nothing before the start is crossed and when the
current position is outside the circle of the current sector. -/
theorem processSector_keepsTiming (E : Geo) (now : Int) (s : GpsState) (track : Track) (r : ℚ)
    (h : s.g_lastStartFinishTimestamp = 0 ∨
      E.gc_isPointInGeoCircle (getGeoPoint s)
        (E.gc_createGeoCircle (E.getSectorGeoPointAtIndex track s.g_sector) r) = false) :
    keepsTiming (processSector E now s track r) s := by
  by_cases h0 : s.g_lastStartFinishTimestamp = 0
  · rw [processSector_not_started E now s track r h0]
    simp [keepsTiming]
  · rcases h with h | h
    · exact absurd h h0
    · rw [processSector_outside E now s track r h0 h]
      simp [keepsTiming]

/-- The start/finish block of `onLocationUpdated` for a fix outside the start
circle, the finish circle and the circle of the current sector, in a session
that is running or has no launch candidate. -/
theorem trackLaps_outside (E : Geo) (now : Int) (s : GpsState) (x : GpsSample)
    (track : Track) (r : ℚ) (hpos : getGeoPoint s = x.point)
    (hstart : E.gc_isPointInGeoCircle x.point s.lc.g_geoCircle = false)
    (hfin : E.gc_isPointInGeoCircle x.point (E.gc_createGeoCircle (E.getFinishPoint track) r)
      = false)
    (hsec : E.gc_isPointInGeoCircle x.point
      (E.gc_createGeoCircle (E.getSectorGeoPointAtIndex track s.g_sector) r) = false)
    (hstate : s.g_lastStartFinishTimestamp ≠ 0 ∨
      (s.lc.g_startTime = 0 ∧ s.lc.g_hasLaunched = false)) :
    keepsTiming (trackLaps E now s x track r) s := by
  rw [← hpos] at hsec
  by_cases h0 : s.g_lastStartFinishTimestamp = 0
  · have hlc : s.lc.g_startTime = 0 ∧ s.lc.g_hasLaunched = false := by
      rcases hstate with h | h
      · exact absurd h0 h
      · exact h
    have hsup := lc_supply_outside_same E now s.lc x hlc.1 hlc.2 hstart
    have hp : processStartFinish E now s x track r = (s, false) := by
      rw [processStartFinish_first E now s x track r h0, hsup]
      simp [hlc.2]
    rw [trackLaps_no_lap E now s x track r (by rw [hp]), hp]
    split_ifs
    · exact keepsTiming_trans _ _ _ (processSector_keepsTiming E now _ track r (Or.inl h0))
        (by simp [keepsTiming])
    · simp [keepsTiming]
  · have hp : processStartFinish E now s x track r =
        ({ s with g_atStartFinish := 0, g_prevAtStartFinish := 0 }, false) := by
      rw [processStartFinish_running E now s x track r h0]
      simp [hfin, boolToInt]
    rw [trackLaps_no_lap E now s x track r (by rw [hp]), hp]
    split_ifs
    · exact keepsTiming_trans _ _ _ (processSector_keepsTiming E now _ track r (Or.inr hsec))
        (by simp [keepsTiming])
    · simp [keepsTiming]

/-- A usable fix is evaluated in the state `stateAtEvaluation`. -/
theorem onLocationUpdated_at_evaluation (E : Geo) (config : LoggerConfig) (now : Int)
    (s : GpsState) (x : GpsSample) (hq : isGpsSignalUsable x.quality = true) :
    onLocationUpdated E config now s x
      = onLocationUpdated E config now (stateAtEvaluation E config s x.point) x := by
  by_cases hc : s.g_configured = 0
  · simp [onLocationUpdated, hq, stateAtEvaluation, hc, configure]
  · simp [stateAtEvaluation, hc]

/-- The state in which a fix is evaluated is configured and differs from the
state before in the variables of the configuration block only. -/
theorem stateAtEvaluation_fields (E : Geo) (config : LoggerConfig) (s : GpsState)
    (gp : GeoPoint) :
    (stateAtEvaluation E config s gp).g_configured ≠ 0 ∧
      getGeoPoint (stateAtEvaluation E config s gp) = getGeoPoint s ∧
      (stateAtEvaluation E config s gp).g_lapCount = s.g_lapCount ∧
      (stateAtEvaluation E config s gp).g_sector = s.g_sector ∧
      (stateAtEvaluation E config s gp).g_lastLapTime = s.g_lastLapTime ∧
      (stateAtEvaluation E config s gp).g_lastSectorTime = s.g_lastSectorTime ∧
      (stateAtEvaluation E config s gp).g_lastStartFinishTimestamp
        = s.g_lastStartFinishTimestamp := by
  by_cases hc : s.g_configured = 0
  · simp [stateAtEvaluation, hc, configure, getGeoPoint]
  · simp [stateAtEvaluation, hc]

/-- One update of a configured session by a usable fix outside the start
circle, the finish circle and every sector circle, when the session is running
or has no launch candidate. -/
theorem onLocationUpdated_outside (E : Geo) (config : LoggerConfig) (now : Int)
    (s : GpsState) (x : GpsSample) (hq : isGpsSignalUsable x.quality = true)
    (hc : s.g_configured ≠ 0) (hpos : getGeoPoint s = x.point)
    (hstart : E.gc_isPointInGeoCircle x.point s.lc.g_geoCircle = false)
    (hfin : ∀ track, s.g_activeTrack = some track →
      E.gc_isPointInGeoCircle x.point
        (E.gc_createGeoCircle (E.getFinishPoint track) (degreesToMeters config.radius)) = false)
    (hsec : ∀ track i, s.g_activeTrack = some track →
      E.gc_isPointInGeoCircle x.point
        (E.gc_createGeoCircle (E.getSectorGeoPointAtIndex track i)
          (degreesToMeters config.radius)) = false)
    (hstate : s.g_lastStartFinishTimestamp ≠ 0 ∨
      (s.lc.g_startTime = 0 ∧ s.lc.g_hasLaunched = false))
    (hnn : s.startFinishEnabled ≠ 0 → s.g_activeTrack ≠ none) :
    ∃ s2, onLocationUpdated E config now s x = some s2 ∧ keepsTiming s2 s := by
  by_cases hen : s.startFinishEnabled = 0
  · refine ⟨{ s with
        g_distance := s.g_distance + calcDistancesSinceLastSample E s x
        g_prevLatitude := x.point.latitude
        g_prevLongitude := x.point.longitude }, ?_, ?_⟩
    · simp [onLocationUpdated, hq, hc, hen]
    · simp [keepsTiming]
  · cases htr : s.g_activeTrack with
    | none => exact absurd htr (hnn hen)
    | some track =>
      refine ⟨{ trackLaps E now
          { s with g_distance := s.g_distance + calcDistancesSinceLastSample E s x } x track
          (degreesToMeters config.radius) with
        g_prevLatitude := x.point.latitude
        g_prevLongitude := x.point.longitude }, ?_, ?_⟩
      · simp [onLocationUpdated, hq, hc, hen, htr]
      · have h := trackLaps_outside E now
          { s with g_distance := s.g_distance + calcDistancesSinceLastSample E s x } x track
          (degreesToMeters config.radius) hpos hstart (hfin track htr) (hsec track _ htr) hstate
        obtain ⟨a1, a2, a3, a4, a5, a6, a7, a8, a9, a10, a11⟩ := h
        exact ⟨a1, a2, a3, a4, a5, a6, a7, a8, a9, a10, a11⟩

/-- Feeding such a fix any number of times to a configured session. -/
theorem onLocationUpdatedAll_outside (E : Geo) (config : LoggerConfig) (x : GpsSample)
    (hq : isGpsSignalUsable x.quality = true) (nows : List Int) (s : GpsState)
    (hc : s.g_configured ≠ 0) (hpos : getGeoPoint s = x.point)
    (hstart : E.gc_isPointInGeoCircle x.point s.lc.g_geoCircle = false)
    (hfin : ∀ track, s.g_activeTrack = some track →
      E.gc_isPointInGeoCircle x.point
        (E.gc_createGeoCircle (E.getFinishPoint track) (degreesToMeters config.radius)) = false)
    (hsec : ∀ track i, s.g_activeTrack = some track →
      E.gc_isPointInGeoCircle x.point
        (E.gc_createGeoCircle (E.getSectorGeoPointAtIndex track i)
          (degreesToMeters config.radius)) = false)
    (hstate : s.g_lastStartFinishTimestamp ≠ 0 ∨
      (s.lc.g_startTime = 0 ∧ s.lc.g_hasLaunched = false))
    (hnn : s.startFinishEnabled ≠ 0 → s.g_activeTrack ≠ none) :
    ∃ s2, onLocationUpdatedAll E config s (nows.map fun t => (t, x)) = some s2 ∧
      keepsTiming s2 s := by
  induction nows generalizing s with
  | nil => exact ⟨s, rfl, by simp [keepsTiming]⟩
  | cons t ts ih =>
    obtain ⟨s1, h1, k⟩ :=
      onLocationUpdated_outside E config t s x hq hc hpos hstart hfin hsec hstate hnn
    obtain ⟨k1, k2, k3, k4, k5, k6, k7, -⟩ := id k
    obtain ⟨s2, h2, k22⟩ := ih s1 (by rw [k3]; exact hc)
      (by rw [← hpos]; simp [getGeoPoint, k5, k6])
      (by rw [k1]; exact hstart) (by rw [k2]; exact hfin) (by rw [k2]; exact hsec)
      (by rw [k1, k7]; exact hstate) (by rw [k4, k2]; exact hnn)
    refine ⟨s2, ?_, keepsTiming_trans _ _ _ k22 k⟩
    simp only [List.map_cons, onLocationUpdatedAll, h1]
    exact h2

/-- C11 (as amended): for every session state and every usable fix whose point
(the current position) lies outside the start circle, the finish circle and
every sector circle, if in the state in which the fix is evaluated the session
is running or awaits the first crossing with no launch candidate recorded, then
feeding the fix any number of times succeeds and leaves lap count, sector
index, last lap time and last sector time unchanged. -/
theorem C11_non_crossing_updates (E : Geo) (config : LoggerConfig) (s : GpsState)
    (x : GpsSample) (nows : List Int) (hq : isGpsSignalUsable x.quality = true)
    (hpos : getGeoPoint s = x.point)
    (hstart : E.gc_isPointInGeoCircle x.point
      (stateAtEvaluation E config s x.point).lc.g_geoCircle = false)
    (hfin : ∀ track, (stateAtEvaluation E config s x.point).g_activeTrack = some track →
      E.gc_isPointInGeoCircle x.point
        (E.gc_createGeoCircle (E.getFinishPoint track) (degreesToMeters config.radius)) = false)
    (hsec : ∀ track i, (stateAtEvaluation E config s x.point).g_activeTrack = some track →
      E.gc_isPointInGeoCircle x.point
        (E.gc_createGeoCircle (E.getSectorGeoPointAtIndex track i)
          (degreesToMeters config.radius)) = false)
    (hstate : (stateAtEvaluation E config s x.point).g_lastStartFinishTimestamp ≠ 0 ∨
      ((stateAtEvaluation E config s x.point).lc.g_startTime = 0 ∧
        (stateAtEvaluation E config s x.point).lc.g_hasLaunched = false))
    (hnn : (stateAtEvaluation E config s x.point).startFinishEnabled ≠ 0 →
      (stateAtEvaluation E config s x.point).g_activeTrack ≠ none) :
    ∃ s2, onLocationUpdatedAll E config s (nows.map fun t => (t, x)) = some s2 ∧
      s2.g_lapCount = s.g_lapCount ∧ s2.g_sector = s.g_sector ∧
      s2.g_lastLapTime = s.g_lastLapTime ∧ s2.g_lastSectorTime = s.g_lastSectorTime := by
  cases nows with
  | nil => exact ⟨s, rfl, rfl, rfl, rfl, rfl⟩
  | cons t ts =>
    obtain ⟨e1, e2, e3, e4, e5, e6, -⟩ := stateAtEvaluation_fields E config s x.point
    obtain ⟨s2, h2, k⟩ := onLocationUpdatedAll_outside E config x hq (t :: ts)
      (stateAtEvaluation E config s x.point) e1 (e2.trans hpos) hstart hfin hsec hstate hnn
    obtain ⟨-, -, -, -, -, -, -, k8, k9, k10, k11⟩ := id k
    refine ⟨s2, ?_, k8.trans e3, k9.trans e4, k10.trans e5, k11.trans e6⟩
    rw [← h2]
    simp only [List.map_cons, onLocationUpdatedAll]
    rw [onLocationUpdated_at_evaluation E config t s x hq]

/-- The fix at (2, 1) is outside the finish circle of the demo track. -/
theorem grid_fixAway_finish_outside (v : ℚ) :
    gridGeo.gc_isPointInGeoCircle (fixAway v).point
      (gridGeo.gc_createGeoCircle (gridGeo.getFinishPoint demoTrack)
        (degreesToMeters demoConfig.radius)) = false := by
  simp [gridGeo, gridDistance, fixAway, demoTrack, demoConfig, degreesToMeters, metersPerDegree]
  norm_num

/-- The fix at (2, 1) is outside the circle of every sector of the demo track. -/
theorem grid_fixAway_sector_outside (v : ℚ) (i : Int) :
    gridGeo.gc_isPointInGeoCircle (fixAway v).point
      (gridGeo.gc_createGeoCircle (gridGeo.getSectorGeoPointAtIndex demoTrack i)
        (degreesToMeters demoConfig.radius)) = false := by
  have hp : gridGeo.getSectorGeoPointAtIndex demoTrack i = ⟨1, 2⟩ ∨
      gridGeo.getSectorGeoPointAtIndex demoTrack i = ⟨0, 0⟩ := by
    simp only [gridGeo, demoTrack]
    rcases i.toNat with _ | _ | n <;> simp [List.getD]
  rcases hp with hp | hp <;> rw [hp] <;>
    simp [gridGeo, gridDistance, fixAway, demoConfig, degreesToMeters, metersPerDegree] <;>
    norm_num

/-- The fix at (2, 1) is outside the start circle of the demo session. -/
theorem grid_fixAway_start_outside (v : ℚ) :
    gridGeo.gc_isPointInGeoCircle (fixAway v).point ⟨⟨1, 1⟩, demoRadius⟩ = false := by
  simp [gridGeo, gridDistance, fixAway, demoRadius, degreesToMeters, metersPerDegree]
  norm_num

/-- The configured session `demoOffTrack` is evaluated as it is. -/
theorem demoOffTrack_evaluation (p : GeoPoint) :
    stateAtEvaluation gridGeo demoConfig demoOffTrack p = demoOffTrack := by
  have h : demoOffTrack.g_configured = 1 := rfl
  simp [stateAtEvaluation, h]

/-- C11, witness: the running demo session is fed the fix at (2, 1) twice. -/
theorem C11_non_crossing_updates_witness :
    ∃ s2, onLocationUpdatedAll gridGeo demoConfig demoOffTrack
        ([(20000 : Int), 20500].map fun t => (t, fixAway 10)) = some s2 ∧
      s2.g_lapCount = demoOffTrack.g_lapCount ∧ s2.g_sector = demoOffTrack.g_sector ∧
      s2.g_lastLapTime = demoOffTrack.g_lastLapTime ∧
      s2.g_lastSectorTime = demoOffTrack.g_lastSectorTime :=
  C11_non_crossing_updates gridGeo demoConfig demoOffTrack (fixAway 10) [20000, 20500]
    (by decide) rfl
    (by rw [demoOffTrack_evaluation]; exact grid_fixAway_start_outside 10)
    (by
      rw [demoOffTrack_evaluation]
      intro track htr
      have : track = demoTrack := (Option.some.inj htr).symm
      rw [this]
      exact grid_fixAway_finish_outside 10)
    (by
      rw [demoOffTrack_evaluation]
      intro track i htr
      have : track = demoTrack := (Option.some.inj htr).symm
      rw [this]
      exact grid_fixAway_sector_outside 10 i)
    (by rw [demoOffTrack_evaluation]; exact Or.inl (by decide))
    (by rw [demoOffTrack_evaluation]; intro _ h; cases h)

/-- C11, counterexample: the demo session awaits the first crossing with a
launch candidate recorded at time 5.  The usable fix at (2, 1), the current
position, is outside the start circle, the finish circle and every sector
circle; the update reports the launch and the sector index goes from -1 to
0. -/
theorem C11_launch_changes_sector :
    isGpsSignalUsable (fixAway 10).quality = true ∧
      getGeoPoint demoLeaving = (fixAway 10).point ∧
      gridGeo.gc_isPointInGeoCircle (fixAway 10).point demoLeaving.lc.g_geoCircle = false ∧
      gridGeo.gc_isPointInGeoCircle (fixAway 10).point
        (gridGeo.gc_createGeoCircle (gridGeo.getFinishPoint demoTrack)
          (degreesToMeters demoConfig.radius)) = false ∧
      (∀ i, gridGeo.gc_isPointInGeoCircle (fixAway 10).point
        (gridGeo.gc_createGeoCircle (gridGeo.getSectorGeoPointAtIndex demoTrack i)
          (degreesToMeters demoConfig.radius)) = false) ∧
      demoLeaving.g_activeTrack = some demoTrack ∧
      demoLeaving.g_sector = -1 ∧
      (onLocationUpdated gridGeo demoConfig 9 demoLeaving (fixAway 10)).map
        (fun t => t.g_sector) = some 0 := by
  have hq : isGpsSignalUsable (fixAway 10).quality = true := by decide
  have hs := grid_fixAway_start_outside 10
  refine ⟨hq, rfl, hs, grid_fixAway_finish_outside 10, grid_fixAway_sector_outside 10,
    rfl, rfl, ?_⟩
  have hv : gridGeo.gc_isValidGeoCircle ⟨⟨1, 1⟩, demoRadius⟩ = true := by
    simp [gridGeo, gridValidPoint, demoRadius, degreesToMeters]
    norm_num
  have hlc : lc_supplyGpsSample gridGeo 9 ⟨5, ⟨⟨1, 1⟩, demoRadius⟩, false⟩ (fixAway 10)
      = ⟨5, ⟨⟨1, 1⟩, demoRadius⟩, true⟩ := by
    rw [lc_supply_outside gridGeo 9 ⟨5, ⟨⟨1, 1⟩, demoRadius⟩, false⟩ (fixAway 10) hv rfl hs]
    rfl
  have hf : demoLeaving.startFinishEnabled = 1 ∧ demoLeaving.g_configured = 1 ∧
      demoLeaving.g_activeTrack = some demoTrack ∧ demoLeaving.sectorEnabled = 0 ∧
      demoLeaving.g_lapCount = 0 ∧ demoLeaving.g_lastStartFinishTimestamp = 0 ∧
      demoLeaving.lc = ⟨5, ⟨⟨1, 1⟩, demoRadius⟩, false⟩ := ⟨rfl, rfl, rfl, rfl, rfl, rfl, rfl⟩
  obtain ⟨h1, h2, h3, h4, h5, h6, h7⟩ := hf
  simp [onLocationUpdated, hq, trackLaps, processStartFinish_first, hlc,
    h1, h2, h3, h4, h5, h6, h7, resetGpsDistance, getLapCount]

/-! ## The invariant of the lap/sector machine -/

/-- A launch reported for a state that had not launched carries a non-zero
candidate start time. -/
theorem lc_supply_launch_time (E : Geo) (now : Int) (s : LaunchControl) (x : GpsSample)
    (hl : s.g_hasLaunched = false)
    (h : (lc_supplyGpsSample E now s x).g_hasLaunched = true) :
    (lc_supplyGpsSample E now s x).g_startTime ≠ 0 := by
  unfold lc_supplyGpsSample at h ⊢
  split_ifs at h ⊢ <;> simp_all [isValidStartTime]

/-- `processStartFinish` keeps the invariant when the session time is
non-negative. -/
theorem processStartFinish_timingInv (E : Geo) (now : Int) (s : GpsState) (x : GpsSample)
    (track : Track) (r : ℚ) (hnow : 0 ≤ now) (h : timingInv s) :
    timingInv (processStartFinish E now s x track r).1 := by
  obtain ⟨h1, h2, h3, h4⟩ := h
  have hs := lc_supply_startTime E now s.lc x
  have hs2 : 0 ≤ (lc_supplyGpsSample E now s.lc x).g_startTime := by
    rcases hs with e | e <;> rw [e] <;> assumption
  by_cases h0 : s.g_lastStartFinishTimestamp = 0
  · rw [processStartFinish_first E now s x track r h0]
    split_ifs with hl
    · have hne := lc_supply_launch_time E now s.lc x (h3 h0).2 hl
      have hlt : lc_getLaunchTime (lc_supplyGpsSample E now s.lc x)
          = (lc_supplyGpsSample E now s.lc x).g_startTime := by
        simp [lc_getLaunchTime, lc_hasLaunched, hl]
      refine ⟨hs2, ?_, ?_, ?_⟩
      · show 0 ≤ lc_getLaunchTime (lc_supplyGpsSample E now s.lc x)
        rw [hlt]; exact hs2
      · intro hz
        have hz2 : lc_getLaunchTime (lc_supplyGpsSample E now s.lc x) = 0 := hz
        rw [hlt] at hz2
        exact absurd hz2 hne
      · intro _
        exact le_refl (0 : Int)
    · refine ⟨hs2, h2, ?_, ?_⟩
      · intro _
        exact ⟨(h3 h0).1, by simpa using hl⟩
      · intro hz
        exact absurd h0 hz
  · rw [processStartFinish_running E now s x track r h0]
    split_ifs with hc
    · refine ⟨h1, hnow, ?_, ?_⟩
      · intro hz
        have hz2 : now = 0 := hz
        have := hc.2.2
        omega
      · intro _
        exact h4 h0
    · exact ⟨h1, h2, fun hz => absurd hz h0, fun _ => h4 h0⟩

/-- `processSector` keeps the invariant. -/
theorem processSector_timingInv (E : Geo) (now : Int) (s : GpsState) (track : Track) (r : ℚ)
    (h : timingInv s) : timingInv (processSector E now s track r) := by
  obtain ⟨h1, h2, h3, h4⟩ := h
  by_cases h0 : s.g_lastStartFinishTimestamp = 0
  · rw [processSector_not_started E now s track r h0]
    exact ⟨h1, h2, h3, h4⟩
  · cases hin : E.gc_isPointInGeoCircle (getGeoPoint s)
        (E.gc_createGeoCircle (E.getSectorGeoPointAtIndex track s.g_sector) r) with
    | false =>
      rw [processSector_outside E now s track r h0 hin]
      exact ⟨h1, h2, h3, h4⟩
    | true =>
      rw [processSector_inside E now s track r h0 hin]
      have hsec : (0 : Int) ≤
          if E.areGeoPointsEqual (E.getSectorGeoPointAtIndex track s.g_sector)
              (E.getSectorGeoPointAtIndex track (s.g_sector + 1)) = true then 0
          else s.g_sector + 1 := by
        split_ifs
        · exact le_refl _
        · exact Int.add_nonneg (h4 h0) (by decide)
      exact ⟨h1, h2, fun hz => absurd hz h0, fun _ => hsec⟩

/-- The start/finish block of `onLocationUpdated` keeps the invariant when the
session time is non-negative, and keeps the configured flag and the active
track. -/
theorem trackLaps_timingInv (E : Geo) (now : Int) (s : GpsState) (x : GpsSample)
    (track : Track) (r : ℚ) (hnow : 0 ≤ now) (h : timingInv s) :
    timingInv (trackLaps E now s x track r) := by
  have hp := processStartFinish_timingInv E now s x track r hnow h
  unfold trackLaps
  simp only []
  split_ifs <;>
    first
    | exact hp
    | exact processSector_timingInv E now _ track r hp

/-- The start/finish block of `onLocationUpdated` keeps the configured flag. -/
theorem trackLaps_configured (E : Geo) (now : Int) (s : GpsState) (x : GpsSample)
    (track : Track) (r : ℚ) :
    (trackLaps E now s x track r).g_configured = s.g_configured := by
  have hp : (processStartFinish E now s x track r).1.g_configured = s.g_configured := by
    by_cases h : s.g_lastStartFinishTimestamp = 0
    · rw [processStartFinish_first E now s x track r h]
      split_ifs <;> rfl
    · rw [processStartFinish_running E now s x track r h]
      split_ifs <;> rfl
  have hs : ∀ t : GpsState, (processSector E now t track r).g_configured = t.g_configured := by
    intro t
    unfold processSector
    simp only []
    split_ifs <;> rfl
  unfold trackLaps
  simp only []
  split_ifs <;> simp [hs, hp, resetGpsDistance]

/-- The state in which a fix is evaluated satisfies the invariant of a
configured session. -/
theorem stateAtEvaluation_inv (E : Geo) (config : LoggerConfig) (s : GpsState) (gp : GeoPoint)
    (h : sessionInv s) :
    (stateAtEvaluation E config s gp).g_configured ≠ 0 ∧
      (stateAtEvaluation E config s gp).g_activeTrack ≠ none ∧
      timingInv (stateAtEvaluation E config s gp) := by
  rcases h with ⟨hc, h1, h2, h3⟩ | ⟨hc, h1, h2⟩
  · simp only [stateAtEvaluation, hc, beq_self_eq_true, ↓reduceIte]
    refine ⟨by simp [configure], by simp [configure], ?_⟩
    exact ⟨le_refl _, h1, fun hz => ⟨h2 hz, rfl⟩, h3⟩
  · have hc2 : (s.g_configured == 0) = false := by simpa using hc
    simp only [stateAtEvaluation, hc2]
    exact ⟨hc, h1, h2⟩

/-- `onLocationUpdated` succeeds and keeps the invariant of a session when the
session time is non-negative. -/
theorem onLocationUpdated_sessionInv (E : Geo) (config : LoggerConfig) (now : Int)
    (s : GpsState) (x : GpsSample) (hnow : 0 ≤ now) (h : sessionInv s) :
    ∃ s2, onLocationUpdated E config now s x = some s2 ∧ sessionInv s2 := by
  by_cases hq : isGpsSignalUsable x.quality = true
  · rw [onLocationUpdated_at_evaluation E config now s x hq]
    obtain ⟨hc, htr, hinv⟩ := stateAtEvaluation_inv E config s x.point h
    generalize stateAtEvaluation E config s x.point = e at hc htr hinv
    by_cases hen : e.startFinishEnabled = 0
    · refine ⟨{ e with
          g_distance := e.g_distance + calcDistancesSinceLastSample E e x
          g_prevLatitude := x.point.latitude
          g_prevLongitude := x.point.longitude }, ?_, Or.inr ⟨hc, htr, hinv⟩⟩
      simp [onLocationUpdated, hq, hc, hen]
    · cases ht : e.g_activeTrack with
      | none => exact absurd ht htr
      | some track =>
        refine ⟨{ trackLaps E now
            { e with g_distance := e.g_distance + calcDistancesSinceLastSample E e x } x track
            (degreesToMeters config.radius) with
          g_prevLatitude := x.point.latitude
          g_prevLongitude := x.point.longitude }, ?_, Or.inr ⟨?_, ?_, ?_⟩⟩
        · simp [onLocationUpdated, hq, hc, hen, ht]
        · show (trackLaps E now _ x track (degreesToMeters config.radius)).g_configured ≠ 0
          rw [trackLaps_configured]
          exact hc
        · show (trackLaps E now _ x track (degreesToMeters config.radius)).g_activeTrack ≠ none
          rw [(trackLaps_fields E now _ x track _).2.2.1,
            (processStartFinish_lap_fields E now _ x track _).1]
          exact htr
        · exact trackLaps_timingInv E now
            { e with g_distance := e.g_distance + calcDistancesSinceLastSample E e x } x track
            (degreesToMeters config.radius) hnow hinv
  · refine ⟨s, ?_, h⟩
    simp [onLocationUpdated, hq]

/-- Every sequence of fixes at non-negative session times succeeds and keeps
the invariant of a session. -/
theorem onLocationUpdatedAll_sessionInv (E : Geo) (config : LoggerConfig)
    (xs : List (Int × GpsSample)) (s : GpsState) (hpos : ∀ x ∈ xs, 0 ≤ x.1)
    (h : sessionInv s) :
    ∃ s2, onLocationUpdatedAll E config s xs = some s2 ∧ sessionInv s2 := by
  induction xs generalizing s with
  | nil => exact ⟨s, rfl, h⟩
  | cons x xs ih =>
    obtain ⟨s1, h1, k1⟩ :=
      onLocationUpdated_sessionInv E config x.1 s x.2 (hpos x (List.mem_cons_self _ _)) h
    obtain ⟨s2, h2, k2⟩ := ih s1 (fun y hy => hpos y (List.mem_cons_of_mem _ hy)) k1
    refine ⟨s2, ?_, k2⟩
    simp only [onLocationUpdatedAll, h1]
    exact h2

/-- C15: in every state reached from `initGPS` by a sequence of fixes at
non-negative session times (every such sequence is processed to the end), the
sector index is -1 and `processSector` changes nothing as long as the start has
not been crossed, and the sector index is non-negative once it has been
crossed. -/
theorem C15_sector_sentinel (E : Geo) (config : LoggerConfig) (s : GpsState)
    (xs : List (Int × GpsSample)) (hpos : ∀ x ∈ xs, 0 ≤ x.1) :
    ∃ s2, onLocationUpdatedAll E config (initGPS s) xs = some s2 ∧
      (s2.g_lastStartFinishTimestamp = 0 →
        s2.g_sector = -1 ∧ ∀ now track r, processSector E now s2 track r = s2) ∧
      (s2.g_lastStartFinishTimestamp ≠ 0 → 0 ≤ s2.g_sector) := by
  have h0 : sessionInv (initGPS s) :=
    Or.inl ⟨rfl, le_refl _, fun _ => rfl, fun hz => absurd rfl hz⟩
  obtain ⟨s2, h2, k⟩ := onLocationUpdatedAll_sessionInv E config xs (initGPS s) hpos h0
  refine ⟨s2, h2, ?_, ?_⟩
  · intro hz
    refine ⟨?_, fun now track r => processSector_not_started E now s2 track r hz⟩
    rcases k with ⟨-, -, k3, -⟩ | ⟨-, -, -, -, k3, -⟩
    · exact k3 hz
    · exact (k3 hz).1
  · intro hz
    rcases k with ⟨-, -, -, k4⟩ | ⟨-, -, -, -, -, k4⟩
    · exact k4 hz
    · exact k4 hz

/-- C15, witness: the session is started, the demo track is configured by the
first fix, and the vehicle leaves the start circle at time 6. -/
theorem C15_sector_sentinel_witness :
    ∃ s2, onLocationUpdatedAll gridGeo demoConfig (initGPS zeroState)
        [(0, fixAtStart 1), (5, fixAtStart 1), (6, fixAway 10)] = some s2 ∧
      (s2.g_lastStartFinishTimestamp = 0 →
        s2.g_sector = -1 ∧ ∀ now track r, processSector gridGeo now s2 track r = s2) ∧
      (s2.g_lastStartFinishTimestamp ≠ 0 → 0 ≤ s2.g_sector) :=
  C15_sector_sentinel gridGeo demoConfig zeroState
    [(0, fixAtStart 1), (5, fixAtStart 1), (6, fixAway 10)]
    (by
      intro x hx
      simp only [List.mem_cons, List.mem_singleton, List.not_mem_nil, or_false] at hx
      rcases hx with rfl | rfl | rfl <;> decide)

/-! ## Sequences of start/finish calls: the transition and the lap times -/

/-- The four ways in which one call of `processStartFinish` at a non-negative
session time acts on a state that satisfies the invariant: the launch, waiting
for it, a counted lap, no lap. -/
theorem startFinishStep_trace (E : Geo) (s : GpsState) (c : StartFinishCall)
    (hnow : 0 ≤ c.now) (h : timingInv s) :
    timingInv (startFinishStep E s c) ∧
      ((s.g_lastStartFinishTimestamp = 0 ∧
          (processStartFinish E c.now s c.gpsSample c.track c.targetRadius).2 = true ∧
          (startFinishStep E s c).g_lapCount = s.g_lapCount ∧
          (startFinishStep E s c).g_lastStartFinishTimestamp ≠ 0) ∨
        (s.g_lastStartFinishTimestamp = 0 ∧
          (processStartFinish E c.now s c.gpsSample c.track c.targetRadius).2 = false ∧
          (startFinishStep E s c).g_lapCount = s.g_lapCount ∧
          (startFinishStep E s c).g_lastStartFinishTimestamp = 0) ∨
        (s.g_lastStartFinishTimestamp ≠ 0 ∧
          (startFinishStep E s c).g_lapCount = s.g_lapCount + 1 ∧
          (startFinishStep E s c).g_lastLapTime = c.now - s.g_lastStartFinishTimestamp ∧
          (startFinishStep E s c).g_lastStartFinishTimestamp = c.now ∧ c.now ≠ 0) ∨
        (s.g_lastStartFinishTimestamp ≠ 0 ∧
          (startFinishStep E s c).g_lapCount = s.g_lapCount ∧
          (startFinishStep E s c).g_lastStartFinishTimestamp = s.g_lastStartFinishTimestamp)) := by
  have hinv := processStartFinish_timingInv E c.now s c.gpsSample c.track c.targetRadius hnow h
  refine ⟨hinv, ?_⟩
  unfold startFinishStep at hinv ⊢
  by_cases h0 : s.g_lastStartFinishTimestamp = 0
  · rw [processStartFinish_first E c.now s c.gpsSample c.track c.targetRadius h0] at hinv ⊢
    split_ifs at hinv ⊢ with hl
    · left
      refine ⟨h0, rfl, rfl, ?_⟩
      intro hz
      have := (hinv.2.2.1 hz).2
      rw [hl] at this
      cases this
    · right; left
      exact ⟨h0, rfl, rfl, h0⟩
  · rw [processStartFinish_running E c.now s c.gpsSample c.track c.targetRadius h0]
    split_ifs with hc
    · right; right; left
      refine ⟨h0, rfl, rfl, rfl, ?_⟩
      have := hc.2.2
      have := h.2.1
      omega
    · right; right; right
      exact ⟨h0, rfl, rfl⟩

/-- A sequence of calls at non-negative session times keeps the invariant. -/
theorem processStartFinishAll_timingInv (E : Geo) (cs : List StartFinishCall) (s : GpsState)
    (hpos : ∀ c ∈ cs, 0 ≤ c.now) (h : timingInv s) :
    timingInv (processStartFinishAll E s cs) := by
  induction cs generalizing s with
  | nil => exact h
  | cons c cs ih =>
    exact ih _ (fun d hd => hpos d (List.mem_cons_of_mem _ hd))
      (startFinishStep_trace E s c (hpos c (List.mem_cons_self _ _)) h).1

/-- The state after `initGPS` and the configuration block satisfies the
invariant. -/
theorem configure_initGPS_timingInv (E : Geo) (config : LoggerConfig) (s : GpsState)
    (p : GeoPoint) (r : ℚ) : timingInv (configure E config (initGPS s) p r) :=
  ⟨le_refl _, le_refl _, fun _ => ⟨rfl, rfl⟩, fun hz => absurd rfl hz⟩

/-- Once the start has been crossed, it stays crossed, and no later call
returns true from the first-crossing branch. -/
theorem processStartFinishAll_crossed (E : Geo) (cs : List StartFinishCall) (s : GpsState)
    (hpos : ∀ c ∈ cs, 0 ≤ c.now) (h : timingInv s) (hne : s.g_lastStartFinishTimestamp ≠ 0) :
    (processStartFinishAll E s cs).g_lastStartFinishTimestamp ≠ 0 ∧
      firstCrossingReports E s cs = 0 := by
  induction cs generalizing s with
  | nil => exact ⟨hne, rfl⟩
  | cons c cs ih =>
    obtain ⟨hinv, hcase⟩ := startFinishStep_trace E s c (hpos c (List.mem_cons_self _ _)) h
    have hne2 : (startFinishStep E s c).g_lastStartFinishTimestamp ≠ 0 := by
      rcases hcase with ⟨e, -⟩ | ⟨e, -⟩ | ⟨-, -, -, e1, e2⟩ | ⟨-, -, e⟩
      · exact absurd e hne
      · exact absurd e hne
      · rw [e1]; exact e2
      · rw [e]; exact hne
    obtain ⟨k1, k2⟩ := ih _ (fun d hd => hpos d (List.mem_cons_of_mem _ hd)) hinv hne2
    refine ⟨k1, ?_⟩
    simp [firstCrossingReports, hne, k2]

/-- At most one call returns true from the first-crossing branch. -/
theorem firstCrossingReports_le_one (E : Geo) (cs : List StartFinishCall) (s : GpsState)
    (hpos : ∀ c ∈ cs, 0 ≤ c.now) (h : timingInv s) :
    firstCrossingReports E s cs ≤ 1 := by
  induction cs generalizing s with
  | nil => simp [firstCrossingReports]
  | cons c cs ih =>
    obtain ⟨hinv, hcase⟩ := startFinishStep_trace E s c (hpos c (List.mem_cons_self _ _)) h
    have hpos2 : ∀ d ∈ cs, 0 ≤ d.now := fun d hd => hpos d (List.mem_cons_of_mem _ hd)
    rcases hcase with ⟨e0, e1, -, e2⟩ | ⟨e0, e1, -⟩ | ⟨e0, -⟩ | ⟨e0, -⟩
    · have := (processStartFinishAll_crossed E cs _ hpos2 hinv e2).2
      simp [firstCrossingReports, e0, e1, this]
    · have := ih _ hpos2 hinv
      simpa [firstCrossingReports, e0, e1] using this
    · have := ih _ hpos2 hinv
      simpa [firstCrossingReports, e0] using this
    · have := ih _ hpos2 hinv
      simpa [firstCrossingReports, e0] using this

/-- C17: in every run of `processStartFinish` from `initGPS` and the
configuration block at non-negative session times, once
`g_lastStartFinishTimestamp` is non-zero it is non-zero after every later call
(the first-crossing branch is not entered again), and at most one call of the
run returns true from the first-crossing branch. -/
theorem C17_single_transition (E : Geo) (config : LoggerConfig) (s : GpsState) (p : GeoPoint)
    (pre post : List StartFinishCall) (hpos : ∀ c ∈ pre ++ post, 0 ≤ c.now) :
    ((processStartFinishAll E (configure E config (initGPS s) p (degreesToMeters config.radius))
          pre).g_lastStartFinishTimestamp ≠ 0 →
        (processStartFinishAll E (configure E config (initGPS s) p (degreesToMeters config.radius))
          (pre ++ post)).g_lastStartFinishTimestamp ≠ 0 ∧
        firstCrossingReports E (processStartFinishAll E
          (configure E config (initGPS s) p (degreesToMeters config.radius)) pre) post = 0) ∧
      firstCrossingReports E (configure E config (initGPS s) p (degreesToMeters config.radius))
        (pre ++ post) ≤ 1 := by
  have h0 := configure_initGPS_timingInv E config s p (degreesToMeters config.radius)
  refine ⟨fun hne => ?_, firstCrossingReports_le_one E _ _ hpos h0⟩
  rw [processStartFinishAll_append]
  exact processStartFinishAll_crossed E post _
    (fun c hc => hpos c (List.mem_append_right _ hc))
    (processStartFinishAll_timingInv E pre _
      (fun c hc => hpos c (List.mem_append_left _ hc)) h0) hne

/-- C17, witness: in the demo session the launch is the only report of the
first-crossing branch. -/
theorem C17_single_transition_witness :
    firstCrossingReports gridGeo demoFresh
      ([demoCall 5 (fixAtStart 1), demoCall 6 (fixAway 10)] ++
        [demoCall 20000 (fixAtStart 10)]) ≤ 1 :=
  (C17_single_transition gridGeo demoConfig zeroState ⟨1, 1⟩
    [demoCall 5 (fixAtStart 1), demoCall 6 (fixAway 10)] [demoCall 20000 (fixAtStart 10)]
    (by
      intro c hc
      simp only [List.cons_append, List.nil_append, List.mem_cons, List.mem_singleton,
        List.not_mem_nil, or_false] at hc
      rcases hc with rfl | rfl | rfl <;> decide)).2

/-- The last-crossing timestamp after a sequence of calls is the timestamp at
its start (the launch time, when the sequence starts before the first
crossing) plus the lap times written, and the number of lap times written is
the growth of the lap count. -/
theorem lap_times_from (E : Geo) (cs : List StartFinishCall) (s : GpsState)
    (hpos : ∀ c ∈ cs, 0 ≤ c.now) (h : timingInv s) :
    (processStartFinishAll E s cs).g_lastStartFinishTimestamp
        = (if s.g_lastStartFinishTimestamp = 0 then launchStamp E s cs
            else s.g_lastStartFinishTimestamp) + (lapTimesWritten E s cs).sum ∧
      ((lapTimesWritten E s cs).length : Int)
        = (processStartFinishAll E s cs).g_lapCount - s.g_lapCount := by
  induction cs generalizing s with
  | nil =>
    by_cases h0 : s.g_lastStartFinishTimestamp = 0 <;>
      simp [processStartFinishAll, launchStamp, lapTimesWritten, h0]
  | cons c cs ih =>
    obtain ⟨hinv, hcase⟩ := startFinishStep_trace E s c (hpos c (List.mem_cons_self _ _)) h
    obtain ⟨k1, k2⟩ := ih _ (fun d hd => hpos d (List.mem_cons_of_mem _ hd)) hinv
    simp only [processStartFinishAll]
    rcases hcase with ⟨e0, e1, e2, e3⟩ | ⟨e0, e1, e2, e3⟩ | ⟨e0, e1, e2, e3, e4⟩ | ⟨e0, e1, e2⟩
    · rw [if_neg e3] at k1
      simp only [launchStamp, lapTimesWritten, e0, e1, e2, and_self, ↓reduceIte, ne_eq,
        not_true_eq_false, List.nil_append]
      exact ⟨k1, by rw [k2, e2]⟩
    · rw [if_pos e3] at k1
      simp only [launchStamp, lapTimesWritten, e0, e1, e2, ↓reduceIte, ne_eq,
        not_true_eq_false, List.nil_append, Bool.false_eq_true, and_false]
      exact ⟨k1, by rw [k2, e2]⟩
    · rw [e3, if_neg e4] at k1
      have hne : s.g_lapCount + 1 ≠ s.g_lapCount := by omega
      simp only [lapTimesWritten, e1, e2, if_neg e0, ne_eq, hne, not_false_eq_true, ↓reduceIte,
        List.singleton_append, List.sum_cons, List.length_cons]
      refine ⟨by rw [k1]; ring, ?_⟩
      push_cast
      rw [k2, e1]
      ring
    · rw [e2, if_neg e0] at k1
      simp only [lapTimesWritten, e1, if_neg e0, ne_eq, not_true_eq_false, ↓reduceIte,
        List.nil_append]
      exact ⟨k1, by rw [k2, e1]⟩

/-- C19 (as amended): in every state reached from `initGPS` and the
configuration block by calls of `processStartFinish` at non-negative session
times,
`g_lastStartFinishTimestamp` is the launch time stamped at the first crossing
plus the sum of the values written to `g_lastLapTime`, and the number of these
values is `g_lapCount`. -/
theorem C19_lap_times_telescope (E : Geo) (config : LoggerConfig) (s : GpsState) (p : GeoPoint)
    (cs : List StartFinishCall) (hpos : ∀ c ∈ cs, 0 ≤ c.now) :
    (processStartFinishAll E (configure E config (initGPS s) p (degreesToMeters config.radius))
        cs).g_lastStartFinishTimestamp
        = launchStamp E (configure E config (initGPS s) p (degreesToMeters config.radius)) cs
          + (lapTimesWritten E
            (configure E config (initGPS s) p (degreesToMeters config.radius)) cs).sum ∧
      ((lapTimesWritten E
          (configure E config (initGPS s) p (degreesToMeters config.radius)) cs).length : Int)
        = (processStartFinishAll E
          (configure E config (initGPS s) p (degreesToMeters config.radius)) cs).g_lapCount := by
  obtain ⟨k1, k2⟩ := lap_times_from E cs _ hpos
    (configure_initGPS_timingInv E config s p (degreesToMeters config.radius))
  have h0 : (configure E config (initGPS s) p
      (degreesToMeters config.radius)).g_lastStartFinishTimestamp = 0 := rfl
  have hl : (configure E config (initGPS s) p (degreesToMeters config.radius)).g_lapCount = 0 :=
    rfl
  rw [if_pos h0] at k1
  rw [hl, sub_zero] at k2
  exact ⟨k1, k2⟩

/-- C19, witness: the demo session with its launch and the return at time
20000. -/
theorem C19_lap_times_telescope_witness :
    (processStartFinishAll gridGeo demoFresh
        [demoCall 5 (fixAtStart 1), demoCall 6 (fixAway 10), demoCall 20000 (fixAtStart 10),
          demoCall 20001 (fixAtStart 10)]).g_lastStartFinishTimestamp
        = launchStamp gridGeo demoFresh
          [demoCall 5 (fixAtStart 1), demoCall 6 (fixAway 10), demoCall 20000 (fixAtStart 10),
            demoCall 20001 (fixAtStart 10)]
          + (lapTimesWritten gridGeo demoFresh
            [demoCall 5 (fixAtStart 1), demoCall 6 (fixAway 10), demoCall 20000 (fixAtStart 10),
              demoCall 20001 (fixAtStart 10)]).sum ∧
      ((lapTimesWritten gridGeo demoFresh
          [demoCall 5 (fixAtStart 1), demoCall 6 (fixAway 10), demoCall 20000 (fixAtStart 10),
            demoCall 20001 (fixAtStart 10)]).length : Int)
        = (processStartFinishAll gridGeo demoFresh
          [demoCall 5 (fixAtStart 1), demoCall 6 (fixAway 10), demoCall 20000 (fixAtStart 10),
            demoCall 20001 (fixAtStart 10)]).g_lapCount :=
  C19_lap_times_telescope gridGeo demoConfig zeroState ⟨1, 1⟩
    [demoCall 5 (fixAtStart 1), demoCall 6 (fixAway 10), demoCall 20000 (fixAtStart 10),
      demoCall 20001 (fixAtStart 10)]
    (by
      intro c hc
      simp only [List.mem_cons, List.mem_singleton, List.not_mem_nil, or_false] at hc
      rcases hc with rfl | rfl | rfl | rfl <;> decide)

/-! ## checksumValid -/

/-- What the loop of `checksumValid` does from index `i` on: it ends at an index
between `i` and the bound, reads indices below the bound only, passes no `*` or
NUL, and ends below the bound only at a `*` or a NUL. -/
theorem checksumScan_spec (gpsData : Nat → Nat) (bound : Nat) (n : Nat) :
    ∀ (i checksum : Nat) (reads : List Nat), bound - i = n →
      i ≤ (checksumScan gpsData bound i checksum reads).1 ∧
      (i ≤ bound → (checksumScan gpsData bound i checksum reads).1 ≤ bound) ∧
      (∀ j ∈ (checksumScan gpsData bound i checksum reads).2.2, j ∈ reads ∨ j < bound) ∧
      (∀ j, i ≤ j → j < (checksumScan gpsData bound i checksum reads).1 →
        gpsData j ≠ 42 ∧ gpsData j ≠ 0) ∧
      ((checksumScan gpsData bound i checksum reads).1 < bound →
        gpsData (checksumScan gpsData bound i checksum reads).1 = 42 ∨
          gpsData (checksumScan gpsData bound i checksum reads).1 = 0) := by
  induction n with
  | zero =>
    intro i checksum reads hn
    have hi : ¬ i < bound := by omega
    rw [checksumScan]
    simp only [hi, ↓reduceIte]
    refine ⟨le_refl _, fun h => h, fun j hj => Or.inl hj, fun j h1 h2 => ?_,
      fun h => False.elim h⟩
    omega
  | succ n ih =>
    intro i checksum reads hn
    have hi : i < bound := by omega
    rw [checksumScan]
    simp only [hi, ↓reduceIte]
    by_cases hd : gpsData i = 42 ∨ gpsData i = 0
    · simp only [hd, ↓reduceIte]
      refine ⟨le_refl _, fun _ => le_of_lt hi, fun j hj => ?_, fun j h1 h2 => ?_,
        fun _ => trivial⟩
      · rcases List.mem_cons.mp hj with rfl | hj
        · exact Or.inr hi
        · exact Or.inl hj
      · omega
    · have key : ∀ cs2 : Nat,
          i ≤ (checksumScan gpsData bound (i + 1) cs2 (i :: reads)).1 ∧
          (i ≤ bound → (checksumScan gpsData bound (i + 1) cs2 (i :: reads)).1 ≤ bound) ∧
          (∀ j ∈ (checksumScan gpsData bound (i + 1) cs2 (i :: reads)).2.2,
            j ∈ reads ∨ j < bound) ∧
          (∀ j, i ≤ j → j < (checksumScan gpsData bound (i + 1) cs2 (i :: reads)).1 →
            gpsData j ≠ 42 ∧ gpsData j ≠ 0) ∧
          ((checksumScan gpsData bound (i + 1) cs2 (i :: reads)).1 < bound →
            gpsData (checksumScan gpsData bound (i + 1) cs2 (i :: reads)).1 = 42 ∨
              gpsData (checksumScan gpsData bound (i + 1) cs2 (i :: reads)).1 = 0) := by
        intro cs2
        obtain ⟨a1, a2, a3, a4, a5⟩ := ih (i + 1) cs2 (i :: reads) (by omega)
        refine ⟨by omega, fun _ => a2 (by omega), fun j hj => ?_, fun j h1 h2 => ?_, a5⟩
        · rcases a3 j hj with h | h
          · rcases List.mem_cons.mp h with rfl | h
            · exact Or.inr hi
            · exact Or.inl h
          · exact Or.inr h
        · by_cases hji : j = i
          · subst hji
            exact ⟨fun h => hd (Or.inl h), fun h => hd (Or.inr h)⟩
          · exact a4 j (by omega) h2
      simp only [hd, ↓reduceIte]
      split_ifs
      · exact key checksum
      · exact key ((checksum ^^^ gpsData i) % 256)

/-- The loop of `checksumValid` over a body that holds no `$`, `*` or NUL and
is followed by `*`: it ends at the `*` with the XOR of the body folded into the
checksum. -/
theorem checksumScan_body (gpsData : Nat → Nat) (bound : Nat) :
    ∀ (body : List Nat) (i checksum : Nat) (reads : List Nat),
      (∀ j (hj : j < body.length), gpsData (i + j) = body[j]) →
      gpsData (i + body.length) = 42 →
      (∀ b ∈ body, b ≠ 36 ∧ b ≠ 42 ∧ b ≠ 0 ∧ b < 256) →
      checksum < 256 → i + body.length < bound →
      (checksumScan gpsData bound i checksum reads).1 = i + body.length ∧
        (checksumScan gpsData bound i checksum reads).2.1
          = body.foldl (fun a b => a ^^^ b) checksum := by
  intro body
  induction body with
  | nil =>
    intro i checksum reads _ hstar _ _ hlt
    have hi : i < bound := by simpa using hlt
    have hs : gpsData i = 42 := by simpa using hstar
    rw [checksumScan]
    simp [hi, hs]
  | cons b body ih =>
    intro i checksum reads hb hstar hbody hcs hlt
    have hi : i < bound := by
      simp only [List.length_cons] at hlt
      omega
    have hgi : gpsData i = b := by
      have := hb 0 (by simp)
      simpa using this
    obtain ⟨b1, b2, b3, b4⟩ := hbody b (List.mem_cons_self _ _)
    have hx : checksum ^^^ b < 256 := Nat.xor_lt_two_pow (n := 8) hcs b4
    rw [checksumScan]
    simp only [hi, ↓reduceIte, hgi, b1, b2, b3, or_self, Nat.mod_eq_of_lt hx]
    have := ih (i + 1) (checksum ^^^ b) (i :: reads)
      (fun j hj => by
        have := hb (j + 1) (by simp only [List.length_cons]; omega)
        simpa [Nat.add_assoc, Nat.add_comm 1 j] using this)
      (by simpa [List.length_cons, Nat.add_assoc, Nat.add_comm 1] using hstar)
      (fun c hc => hbody c (List.mem_cons_of_mem _ hc)) hx
      (by simp only [List.length_cons] at hlt; omega)
    simp only [List.length_cons, List.foldl_cons]
    exact ⟨by rw [this.1]; omega, this.2⟩

/-- C18: for a buffer that holds `$`, a body without `$`, `*` or NUL byte, `*`
and the two characters `h1 h2`, and for every `len` greater than the index of
`*` plus 2, `checksumValid` returns 1 if the XOR of the body bytes equals the
byte that `modp_xtoc` decodes from `h1 h2`, and 0 otherwise. -/
theorem C18_checksum_reference (sizeMax : Nat) (modp_xtoc : Nat → Nat → Nat)
    (gpsData : Nat → Nat) (body : List Nat) (h1 h2 len : Nat)
    (hdollar : gpsData 0 = 36)
    (hb : ∀ j (hj : j < body.length), gpsData (1 + j) = body[j])
    (hstar : gpsData (1 + body.length) = 42)
    (hh1 : gpsData (1 + body.length + 1) = h1) (hh2 : gpsData (1 + body.length + 2) = h2)
    (hbody : ∀ b ∈ body, b ≠ 36 ∧ b ≠ 42 ∧ b ≠ 0 ∧ b < 256)
    (hlen : 1 + body.length + 2 < len) :
    checksumValid sizeMax modp_xtoc gpsData len
      = if body.foldl (fun a b => a ^^^ b) 0 = modp_xtoc h1 h2 then 1 else 0 := by
  have hl0 : len ≠ 0 := by omega
  have hscan := checksumScan_body gpsData (len - 1) body 1 0 [0] hb hstar hbody (by decide)
    (by omega)
  have hfirst : checksumScan gpsData (len - 1) 0 0 []
      = checksumScan gpsData (len - 1) 1 0 [0] := by
    rw [checksumScan]
    have h0 : 0 < len - 1 := by omega
    simp [h0, hdollar]
  unfold checksumValid checksumValidTrace
  simp only [hl0, ↓reduceIte, hfirst, hscan.1, hscan.2, hh1, hh2, gt_iff_lt, hlen]

/-- C18, witness: the line `$AB*03` of length 6; the XOR of `A` and `B` is 3. -/
theorem C18_checksum_reference_witness :
    checksumValid (2 ^ 32 - 1) hexByte (memoryOf [36, 65, 66, 42, 48, 51]) 6
      = if [65, 66].foldl (fun a b => a ^^^ b) 0 = hexByte 48 51 then 1 else 0 :=
  C18_checksum_reference (2 ^ 32 - 1) hexByte (memoryOf [36, 65, 66, 42, 48, 51]) [65, 66]
    48 51 6 rfl
    (by
      intro j hj
      simp only [List.length_cons, List.length_nil] at hj
      have : j = 0 ∨ j = 1 := by omega
      rcases this with rfl | rfl <;> rfl)
    rfl rfl rfl
    (by
      intro b hb
      simp only [List.mem_cons, List.mem_singleton, List.not_mem_nil, or_false] at hb
      rcases hb with rfl | rfl <;> decide)
    (by decide)

/-- C20: for every buffer and every `len ≥ 1`, every index that `checksumValid`
reads, the two checksum characters included, is below `len`; it returns 0 when
no `*` or NUL occurs among the first `len - 1` bytes, and when fewer than two
bytes follow the first `*` or NUL within `len`. -/
theorem C20_checksum_in_bounds (sizeMax : Nat) (modp_xtoc : Nat → Nat → Nat)
    (gpsData : Nat → Nat) (len : Nat) (hlen : 1 ≤ len) :
    (∀ j ∈ (checksumValidTrace sizeMax modp_xtoc gpsData len).2, j < len) ∧
      ((∀ j, j < len - 1 → gpsData j ≠ 42 ∧ gpsData j ≠ 0) →
        checksumValid sizeMax modp_xtoc gpsData len = 0) ∧
      (∀ d, d < len - 1 → (gpsData d = 42 ∨ gpsData d = 0) →
        (∀ j, j < d → gpsData j ≠ 42 ∧ gpsData j ≠ 0) → len - (d + 1) < 2 →
        checksumValid sizeMax modp_xtoc gpsData len = 0) := by
  have hl0 : len ≠ 0 := by omega
  obtain ⟨-, a2, a3, a4, a5⟩ := checksumScan_spec gpsData (len - 1) (len - 1 - 0) 0 0 [] rfl
  have a2 := a2 (Nat.zero_le _)
  unfold checksumValid checksumValidTrace
  simp only [hl0, ↓reduceIte, gt_iff_lt]
  generalize checksumScan gpsData (len - 1) 0 0 [] = r at a2 a3 a4 a5
  refine ⟨?_, ?_, ?_⟩
  · intro j hj
    by_cases hg : r.1 + 2 < len
    · rw [if_pos hg] at hj
      have hj2 : j ∈ (r.1 + 2) :: (r.1 + 1) :: r.2.2 := hj
      simp only [List.mem_cons] at hj2
      rcases hj2 with rfl | rfl | hj2
      · exact hg
      · omega
      · rcases a3 j hj2 with h | h
        · simp at h
        · omega
    · rw [if_neg hg] at hj
      have hj2 : j ∈ r.2.2 := hj
      rcases a3 j hj2 with h | h
      · simp at h
      · omega
  · intro hno
    have hend : ¬ r.1 < len - 1 := by
      intro hlt
      have := hno r.1 hlt
      rcases a5 hlt with h | h
      · exact this.1 h
      · exact this.2 h
    have hg : ¬ r.1 + 2 < len := by omega
    simp [hg]
  · intro d hd hdel hfirst hfew
    have h1 : ¬ d < r.1 := by
      intro hlt
      have := a4 d (Nat.zero_le _) hlt
      rcases hdel with h | h
      · exact this.1 h
      · exact this.2 h
    have h2 : ¬ r.1 < d := by
      intro hlt
      have := hfirst r.1 hlt
      rcases a5 (by omega) with h | h
      · exact this.1 h
      · exact this.2 h
    have hg : ¬ r.1 + 2 < len := by omega
    simp [hg]

/-- C20, witness: the line `$AB*0` of length 5 is cut after the first checksum
character. -/
theorem C20_checksum_in_bounds_witness :
    (∀ j ∈ (checksumValidTrace (2 ^ 32 - 1) hexByte (memoryOf [36, 65, 66, 42, 48]) 5).2,
        j < 5) ∧
      ((∀ j, j < 5 - 1 → memoryOf [36, 65, 66, 42, 48] j ≠ 42 ∧
          memoryOf [36, 65, 66, 42, 48] j ≠ 0) →
        checksumValid (2 ^ 32 - 1) hexByte (memoryOf [36, 65, 66, 42, 48]) 5 = 0) ∧
      (∀ d, d < 5 - 1 →
        (memoryOf [36, 65, 66, 42, 48] d = 42 ∨ memoryOf [36, 65, 66, 42, 48] d = 0) →
        (∀ j, j < d → memoryOf [36, 65, 66, 42, 48] j ≠ 42 ∧
          memoryOf [36, 65, 66, 42, 48] j ≠ 0) → 5 - (d + 1) < 2 →
        checksumValid (2 ^ 32 - 1) hexByte (memoryOf [36, 65, 66, 42, 48]) 5 = 0) :=
  C20_checksum_in_bounds (2 ^ 32 - 1) hexByte (memoryOf [36, 65, 66, 42, 48]) 5 (by decide)

/-! ## Session times below zero -/

/-- The demo session fed session times below zero: the candidate is recorded at
time -50000, the start circle is left at -49999, the vehicle is back in the
finish circle at -30000 and still there at time 0, where the first lap is
counted and the last-crossing timestamp becomes 0. -/
theorem demoFresh_lap_at_zero :
    processStartFinishAll gridGeo demoFresh
        [demoCall (-50000) (fixAtStart 1), demoCall (-49999) (fixAway 10),
          demoCall (-30000) (fixAtStart 10), demoCall 0 (fixAtStart 10)]
      = { demoFresh with
          lc := ⟨-50000, ⟨⟨1, 1⟩, demoRadius⟩, true⟩
          g_lastStartFinishTimestamp := 0
          g_lastSectorTimestamp := -50000
          g_sector := 0
          g_atStartFinish := 1
          g_prevAtStartFinish := 1
          g_lapCount := 1
          g_lastLapTime := 50000 } := by
  have hv : gridGeo.gc_isValidGeoCircle ⟨⟨1, 1⟩, demoRadius⟩ = true := by
    simp [gridGeo, gridValidPoint, demoRadius, degreesToMeters]
    norm_num
  have hi : gridGeo.gc_isPointInGeoCircle (fixAtStart 1).point ⟨⟨1, 1⟩, demoRadius⟩ = true := by
    simp [gridGeo, gridDistance, fixAtStart, demoRadius, degreesToMeters]
    norm_num
  have ho := grid_fixAway_start_outside 10
  have hlc : demoFresh.lc = ⟨0, ⟨⟨1, 1⟩, demoRadius⟩, false⟩ := by
    simp [demoFresh, configure, lc_setup, lc_reset, gridGeo, demoConfig, demoTrack, demoRadius]
  have h0 : demoFresh.g_lastStartFinishTimestamp = 0 := rfl
  have hp : demoFresh.g_prevAtStartFinish = 0 := rfl
  have hl : demoFresh.g_lapCount = 0 := rfl
  simp only [processStartFinishAll, startFinishStep, demoCall]
  simp [processStartFinish, isStartCrossedYet, lc_supplyGpsSample, isConfigured, lc_hasLaunched,
    isGeoPointInStartArea, isValidStartTime, isSpeedBelowThreshold, lc_getLaunchTime, h0, hp, hl,
    hlc, hv, hi, ho, grid_finish_inside, boolToInt, START_FINISH_TIME_THRESHOLD]

/-- C8, counterexample: the demo session, started by `initGPS` and the
configuration block, is called at the non-decreasing session times -50000,
-49999, -30000, 0, 1, 2, 3.  The call at time 0 increments the lap count from 0
to 1 and writes 0 to the last-crossing timestamp; the call at time 1 re-enters
the first-crossing branch, and the call at time 3, with 3 - 0 ≤ 10000,
increments the lap count from 1 to 2. -/
theorem C8_lap_at_time_zero :
    demoFresh = configure gridGeo demoConfig (initGPS zeroState) ⟨1, 1⟩
        (degreesToMeters demoConfig.radius) ∧
      List.Pairwise (fun a b : StartFinishCall => a.now ≤ b.now)
        [demoCall (-50000) (fixAtStart 1), demoCall (-49999) (fixAway 10),
          demoCall (-30000) (fixAtStart 10), demoCall 0 (fixAtStart 10),
          demoCall 1 (fixAtStart 10), demoCall 2 (fixAtStart 10), demoCall 3 (fixAtStart 10)] ∧
      (processStartFinishAll gridGeo demoFresh
        [demoCall (-50000) (fixAtStart 1), demoCall (-49999) (fixAway 10),
          demoCall (-30000) (fixAtStart 10)]).g_lapCount = 0 ∧
      (processStartFinishAll gridGeo demoFresh
        [demoCall (-50000) (fixAtStart 1), demoCall (-49999) (fixAway 10),
          demoCall (-30000) (fixAtStart 10), demoCall 0 (fixAtStart 10)]).g_lapCount = 1 ∧
      (processStartFinishAll gridGeo demoFresh
        [demoCall (-50000) (fixAtStart 1), demoCall (-49999) (fixAway 10),
          demoCall (-30000) (fixAtStart 10), demoCall 0 (fixAtStart 10),
          demoCall 1 (fixAtStart 10), demoCall 2 (fixAtStart 10)]).g_lapCount = 1 ∧
      (processStartFinishAll gridGeo demoFresh
        [demoCall (-50000) (fixAtStart 1), demoCall (-49999) (fixAway 10),
          demoCall (-30000) (fixAtStart 10), demoCall 0 (fixAtStart 10),
          demoCall 1 (fixAtStart 10), demoCall 2 (fixAtStart 10),
          demoCall 3 (fixAtStart 10)]).g_lapCount = 2 ∧
      (demoCall 3 (fixAtStart 10)).now - (demoCall 0 (fixAtStart 10)).now ≤ 10000 := by
  have h4 := demoFresh_lap_at_zero
  have e6 : [demoCall (-50000) (fixAtStart 1), demoCall (-49999) (fixAway 10),
      demoCall (-30000) (fixAtStart 10), demoCall 0 (fixAtStart 10),
      demoCall 1 (fixAtStart 10), demoCall 2 (fixAtStart 10)]
      = [demoCall (-50000) (fixAtStart 1), demoCall (-49999) (fixAway 10),
        demoCall (-30000) (fixAtStart 10), demoCall 0 (fixAtStart 10)]
        ++ [demoCall 1 (fixAtStart 10), demoCall 2 (fixAtStart 10)] := rfl
  have e7 : [demoCall (-50000) (fixAtStart 1), demoCall (-49999) (fixAway 10),
      demoCall (-30000) (fixAtStart 10), demoCall 0 (fixAtStart 10),
      demoCall 1 (fixAtStart 10), demoCall 2 (fixAtStart 10), demoCall 3 (fixAtStart 10)]
      = [demoCall (-50000) (fixAtStart 1), demoCall (-49999) (fixAway 10),
        demoCall (-30000) (fixAtStart 10), demoCall 0 (fixAtStart 10)]
        ++ [demoCall 1 (fixAtStart 10), demoCall 2 (fixAtStart 10),
          demoCall 3 (fixAtStart 10)] := rfl
  refine ⟨rfl, by simp [demoCall], ?_, ?_, ?_, ?_, by decide⟩
  · have hv : gridGeo.gc_isValidGeoCircle ⟨⟨1, 1⟩, demoRadius⟩ = true := by
      simp [gridGeo, gridValidPoint, demoRadius, degreesToMeters]
      norm_num
    have hi : gridGeo.gc_isPointInGeoCircle (fixAtStart 1).point ⟨⟨1, 1⟩, demoRadius⟩
        = true := by
      simp [gridGeo, gridDistance, fixAtStart, demoRadius, degreesToMeters]
      norm_num
    have ho := grid_fixAway_start_outside 10
    have hlc : demoFresh.lc = ⟨0, ⟨⟨1, 1⟩, demoRadius⟩, false⟩ := by
      simp [demoFresh, configure, lc_setup, lc_reset, gridGeo, demoConfig, demoTrack, demoRadius]
    have h0 : demoFresh.g_lastStartFinishTimestamp = 0 := rfl
    have hp : demoFresh.g_prevAtStartFinish = 0 := rfl
    have hl : demoFresh.g_lapCount = 0 := rfl
    simp only [processStartFinishAll, startFinishStep, demoCall]
    simp [processStartFinish, isStartCrossedYet, lc_supplyGpsSample, isConfigured,
      lc_hasLaunched, isGeoPointInStartArea, isValidStartTime, isSpeedBelowThreshold,
      lc_getLaunchTime, h0, hp, hl, hlc, hv, hi, ho, grid_finish_inside, boolToInt,
      START_FINISH_TIME_THRESHOLD]
  · rw [h4]
  · rw [e6, processStartFinishAll_append, h4]
    simp only [processStartFinishAll, startFinishStep, demoCall]
    simp [processStartFinish, isStartCrossedYet, lc_supplyGpsSample, lc_hasLaunched,
      lc_getLaunchTime, grid_finish_inside, boolToInt, START_FINISH_TIME_THRESHOLD]
  · rw [e7, processStartFinishAll_append, h4]
    simp only [processStartFinishAll, startFinishStep, demoCall]
    simp [processStartFinish, isStartCrossedYet, lc_supplyGpsSample, lc_hasLaunched,
      lc_getLaunchTime, grid_finish_inside, boolToInt, START_FINISH_TIME_THRESHOLD]

/-- C19, counterexample: the demo session, started by `initGPS` and the
configuration block, is called at the session times -50000, -49999, -30000, 0
and 1.  The launch stamps -50000, the lap counted at time 0 writes the lap time
50000 and the timestamp 0, and the call at time 1 re-enters the first-crossing
branch and stamps -50000 again: the last-crossing timestamp is -50000, while
the launch time plus the lap times written is 0. -/
theorem C19_timestamp_restamped :
    demoFresh = configure gridGeo demoConfig (initGPS zeroState) ⟨1, 1⟩
        (degreesToMeters demoConfig.radius) ∧
      (processStartFinishAll gridGeo demoFresh
        [demoCall (-50000) (fixAtStart 1), demoCall (-49999) (fixAway 10),
          demoCall (-30000) (fixAtStart 10), demoCall 0 (fixAtStart 10),
          demoCall 1 (fixAtStart 10)]).g_lastStartFinishTimestamp = -50000 ∧
      launchStamp gridGeo demoFresh
        [demoCall (-50000) (fixAtStart 1), demoCall (-49999) (fixAway 10),
          demoCall (-30000) (fixAtStart 10), demoCall 0 (fixAtStart 10),
          demoCall 1 (fixAtStart 10)] = -50000 ∧
      lapTimesWritten gridGeo demoFresh
        [demoCall (-50000) (fixAtStart 1), demoCall (-49999) (fixAway 10),
          demoCall (-30000) (fixAtStart 10), demoCall 0 (fixAtStart 10),
          demoCall 1 (fixAtStart 10)] = [50000] ∧
      (processStartFinishAll gridGeo demoFresh
        [demoCall (-50000) (fixAtStart 1), demoCall (-49999) (fixAway 10),
          demoCall (-30000) (fixAtStart 10), demoCall 0 (fixAtStart 10),
          demoCall 1 (fixAtStart 10)]).g_lastStartFinishTimestamp
        ≠ launchStamp gridGeo demoFresh
            [demoCall (-50000) (fixAtStart 1), demoCall (-49999) (fixAway 10),
              demoCall (-30000) (fixAtStart 10), demoCall 0 (fixAtStart 10),
              demoCall 1 (fixAtStart 10)]
          + (lapTimesWritten gridGeo demoFresh
            [demoCall (-50000) (fixAtStart 1), demoCall (-49999) (fixAway 10),
              demoCall (-30000) (fixAtStart 10), demoCall 0 (fixAtStart 10),
              demoCall 1 (fixAtStart 10)]).sum := by
  have hv : gridGeo.gc_isValidGeoCircle ⟨⟨1, 1⟩, demoRadius⟩ = true := by
    simp [gridGeo, gridValidPoint, demoRadius, degreesToMeters]
    norm_num
  have hi : gridGeo.gc_isPointInGeoCircle (fixAtStart 1).point ⟨⟨1, 1⟩, demoRadius⟩ = true := by
    simp [gridGeo, gridDistance, fixAtStart, demoRadius, degreesToMeters]
    norm_num
  have ho := grid_fixAway_start_outside 10
  have hlc : demoFresh.lc = ⟨0, ⟨⟨1, 1⟩, demoRadius⟩, false⟩ := by
    simp [demoFresh, configure, lc_setup, lc_reset, gridGeo, demoConfig, demoTrack, demoRadius]
  have h0 : demoFresh.g_lastStartFinishTimestamp = 0 := rfl
  have hp : demoFresh.g_prevAtStartFinish = 0 := rfl
  have hl : demoFresh.g_lapCount = 0 := rfl
  have a1 : (processStartFinishAll gridGeo demoFresh
      [demoCall (-50000) (fixAtStart 1), demoCall (-49999) (fixAway 10),
        demoCall (-30000) (fixAtStart 10), demoCall 0 (fixAtStart 10),
        demoCall 1 (fixAtStart 10)]).g_lastStartFinishTimestamp = -50000 := by
    simp only [processStartFinishAll, startFinishStep, demoCall]
    simp [processStartFinish, isStartCrossedYet, lc_supplyGpsSample, isConfigured,
      lc_hasLaunched, isGeoPointInStartArea, isValidStartTime, isSpeedBelowThreshold,
      lc_getLaunchTime, h0, hp, hl, hlc, hv, hi, ho, grid_finish_inside, boolToInt,
      START_FINISH_TIME_THRESHOLD]
  have a2 : launchStamp gridGeo demoFresh
      [demoCall (-50000) (fixAtStart 1), demoCall (-49999) (fixAway 10),
        demoCall (-30000) (fixAtStart 10), demoCall 0 (fixAtStart 10),
        demoCall 1 (fixAtStart 10)] = -50000 := by
    simp only [launchStamp, startFinishStep, demoCall]
    simp [processStartFinish, isStartCrossedYet, lc_supplyGpsSample, isConfigured,
      lc_hasLaunched, isGeoPointInStartArea, isValidStartTime, isSpeedBelowThreshold,
      lc_getLaunchTime, h0, hp, hl, hlc, hv, hi, ho, grid_finish_inside, boolToInt,
      START_FINISH_TIME_THRESHOLD]
  have a3 : lapTimesWritten gridGeo demoFresh
      [demoCall (-50000) (fixAtStart 1), demoCall (-49999) (fixAway 10),
        demoCall (-30000) (fixAtStart 10), demoCall 0 (fixAtStart 10),
        demoCall 1 (fixAtStart 10)] = [50000] := by
    simp only [lapTimesWritten, startFinishStep, demoCall]
    simp [processStartFinish, isStartCrossedYet, lc_supplyGpsSample, isConfigured,
      lc_hasLaunched, isGeoPointInStartArea, isValidStartTime, isSpeedBelowThreshold,
      lc_getLaunchTime, h0, hp, hl, hlc, hv, hi, ho, grid_finish_inside, boolToInt,
      START_FINISH_TIME_THRESHOLD]
  refine ⟨rfl, a1, a2, a3, ?_⟩
  rw [a1, a2, a3]
  decide

end RaceCapture
